import Mathlib

/-!
Keep-alive system (`assets/js/keep-alive.js`)

A shallow embedding of the class `KeepAliveSystem` and of the part of the browser it talks to
(clock, `localStorage`, `setInterval` timers, event listeners, console, in-flight sweeps).

Conventions of the embedding:

* `Date.now()` is the field `now` of the page; time passes only through `advance`.
* An `async` method is cut at its `await`: `pingStart` is the synchronous part of `ping()`,
  `pingResume` the continuation that runs once every probe has settled.
* Numbers are doubles holding integers: `Nat` or `Int` values, with every division and addition
  the script performs rounded as IEEE 754 does (to the nearest double, a tie going to the even
  mantissa). `successRate` can also be `NaN`.
* A stored string is classified by what `if (saved)` and `JSON.parse` make of it.
-/

namespace KeepAlive

/-! ## Values -/

/-- A JavaScript number as far as `successRate` needs it: an integer or `NaN`. -/
inductive Num where
  | int (n : Int)
  | nan
  deriving DecidableEq

/-- What one `fetch(page, ...)` call does: it resolves with a response (`ok`, `status`), or it
rejects with an error object carrying a `message`. -/
inductive FetchResult where
  | response (ok : Bool) (status : Nat)
  | threw (message : String)
  deriving DecidableEq

/-- Result entry of `Promise.allSettled`. -/
inductive Settled (α : Type) where
  | fulfilled (value : α)
  | rejected (reason : String)
  deriving DecidableEq

/-- The `status` string of an entry of `Promise.allSettled`. -/
def Settled.status {α : Type} : Settled α → String
  | .fulfilled _ => "fulfilled"
  | .rejected _ => "rejected"

/-- The object `pingPage` returns: `{ page, status }` or `{ page, status, error }`. -/
structure ProbeOutcome where
  page : String
  status : String
  error : Option String
  deriving DecidableEq

/-- The `document.visibilityState` values. -/
inductive VisibilityState where
  | visible
  | hidden
  | prerender
  deriving DecidableEq

/-! ## Configuration and statistics -/

/-- The `config` argument of the constructor; every property may be missing (`undefined`). -/
structure ConfigArg where
  pingInterval : Option Nat
  healthCheckInterval : Option Nat
  pagesToPing : Option (List String)
  debug : Option Bool
  deriving DecidableEq

/-- The record `this.config`. -/
structure Config where
  pingInterval : Nat
  healthCheckInterval : Nat
  pagesToPing : List String
  storageKey : String
  debug : Bool
  deriving DecidableEq

/-- The record `this.stats`. -/
structure Stats where
  startTime : Nat
  pingCount : Int
  lastPing : Option Nat
  errors : Int
  successRate : Num
  deriving DecidableEq

/-- The fields of one `KeepAliveSystem` instance; `intervals` holds `setInterval` handles. -/
structure KeepAliveSystem where
  config : Config
  stats : Stats
  isActive : Bool
  intervals : List Nat
  deriving DecidableEq

/-- The expression `x || d` on a possibly missing number: `undefined` and `0` are falsy. -/
def orNat (x : Option Nat) (d : Nat) : Nat :=
  match x with
  | none => d
  | some 0 => d
  | some n => n

/-- The expression `x || d` on a possibly missing (or `null`) integer. -/
def orInt (x : Option Int) (d : Int) : Int :=
  match x with
  | none => d
  | some n => if n = 0 then d else n

/-- The page list the constructor falls back to. -/
def defaultPages : List String :=
  ["/index.html", "/about.html", "/blogs.html", "/contact.html", "/products.html"]

/-- The constructor, called at time `now`. An array is truthy even when empty, so a given page
list is always kept. -/
def KeepAliveSystem.new (config : ConfigArg) (now : Nat) : KeepAliveSystem where
  config :=
    { pingInterval := orNat config.pingInterval 60000
      healthCheckInterval := orNat config.healthCheckInterval 300000
      pagesToPing := match config.pagesToPing with
        | some pages => pages
        | none => defaultPages
      storageKey := "marisol_keepalive"
      debug := match config.debug with
        | some b => b
        | none => false }
  stats :=
    { startTime := now
      pingCount := 0
      lastPing := none
      errors := 0
      successRate := .int 100 }
  isActive := false
  intervals := []

/-! ## Double arithmetic on integers -/

/-- Worker of `exponent`, by halving. -/
def exponentAux : Nat → Nat → Nat
  | 0, _ => 0
  | fuel + 1, n => if n < 2 then 0 else exponentAux fuel (n / 2) + 1

/-- The binary exponent of `n ≥ 1`: the `e` with `2 ^ e ≤ n < 2 ^ (e + 1)`. -/
def exponent (n : Nat) : Nat :=
  exponentAux n n

/-- The quotient `n / d` rounded to the nearest integer, a tie going to the even one. -/
def roundHalfEven (n d : Nat) : Nat :=
  let q := n / d
  let r := n % d
  if 2 * r < d then q
  else if d < 2 * r then q + 1
  else if q % 2 = 0 then q else q + 1

/-- The double nearest to the non-negative integer `n`: `n` itself up to `2 ^ 53`, beyond that
`n` rounded to 53 significant bits. Overflow to `Infinity` (from `2 ^ 1024` on) is not
covered. -/
def toDouble (n : Nat) : Nat :=
  if n ≤ 2 ^ 53 then n
  else roundHalfEven n (2 ^ (exponent n - 52)) * 2 ^ (exponent n - 52)

/-- The double nearest to the integer `x`. -/
def toDoubleInt (x : Int) : Int :=
  if x < 0 then -Int.ofNat (toDouble x.natAbs) else Int.ofNat (toDouble x.natAbs)

/-- The sum `x + k` of two doubles holding integers, as `x++` and `x += k` compute it. -/
def addDouble (x k : Int) : Int :=
  toDoubleInt (x + k)

/-- The value `Math.floor(a / b)` for doubles holding the non-negative integers `a` and
`b > 0`: the quotient is rounded to 53 significant bits before the floor is taken. For `a < b`
the rounded quotient reaches 1 only from `1 - 2 ^ (-54)` on. -/
def floorDiv (a b : Nat) : Nat :=
  if a < b then (if b * (2 ^ 54 - 1) ≤ a * 2 ^ 54 then 1 else 0)
  else if exponent (a / b) ≤ 52 then
    roundHalfEven (a * 2 ^ (52 - exponent (a / b))) b / 2 ^ (52 - exponent (a / b))
  else
    roundHalfEven a (b * 2 ^ (exponent (a / b) - 52)) * 2 ^ (exponent (a / b) - 52)

/-- The least `k` with `n * 2 ^ k ≥ d * 2 ^ 52`, for `0 < n` and `n / d < 2 ^ 53`: scaled by
`2 ^ k` the quotient `n / d` has its leading bit at position 52. -/
def mantissaShift (n d : Nat) : Nat :=
  let k := exponent (d * 2 ^ 52 / n)
  if d * 2 ^ 52 ≤ n * 2 ^ k then k else k + 1

/-- The double nearest to the quotient `n / d` (`d > 0`, `n / d < 2 ^ 53`), as the pair
`(m, k)` standing for `m / 2 ^ k`. -/
def roundRatio (n d : Nat) : Nat × Nat :=
  if n = 0 then (0, 0)
  else (roundHalfEven (n * 2 ^ mantissaShift n d) d, mantissaShift n d)

/-- Number of decimal digits of `n`. -/
def digitCount (n : Nat) : Nat :=
  (toString n).length

/-- Distance between two naturals. -/
def distance (a b : Nat) : Nat :=
  if a ≤ b then b - a else a - b

/-- The `k`-digit decimal `s` and the exponent `n` for which `s * 10 ^ (n - k)` rounds to the
double `x ≥ 10 ^ 21`, if there is one; of two such `s` the one nearer to `x`. -/
def shortestDigits (x : Nat) (k : Nat) : Option (Nat × Nat) :=
  let n := digitCount x
  let base := 10 ^ (n - k)
  let low := x / base
  let fits := fun (s : Nat) => decide (10 ^ (k - 1) ≤ s ∧ s < 10 ^ k ∧ toDouble (s * base) = x)
  if k = 1 ∧ toDouble (10 ^ n) = x then some (1, n + 1)
  else if fits low ∧ fits (low + 1) then
    (if distance (low * base) x ≤ distance ((low + 1) * base) x then some (low, n)
      else some (low + 1, n))
  else if fits low then some (low, n)
  else if fits (low + 1) then some (low + 1, n)
  else none

/-- The exponent form of a double `x ≥ 10 ^ 21`, such as `1.1574074074074075e+22`: the fewest
digits that still denote `x`. -/
def exponential (x : Nat) : String :=
  match (List.range 17).findSome?
      (fun i => (shortestDigits x (i + 1)).map (fun r => (i + 1, r))) with
  | some (k, s, n) =>
    let digits := toString s
    if k = 1 then digits ++ "e+" ++ toString (n - 1)
    else digits.take 1 ++ "." ++ digits.drop 1 ++ "e+" ++ toString (n - 1)
  | none => toString x

/-- The text a template literal gives for a double holding the non-negative integer `x`:
decimal digits below `10 ^ 21`, the exponent form from there on. -/
def numberToString (x : Nat) : String :=
  if x < 10 ^ 21 then toString x else exponential x

/-! ## formatUptime -/

/-- The method `formatUptime(ms)` for a double `ms` holding a non-negative integer. -/
def formatUptime (ms : Nat) : String :=
  let seconds := floorDiv ms 1000
  let minutes := floorDiv seconds 60
  let hours := floorDiv minutes 60
  let days := floorDiv hours 24
  if days > 0 then numberToString days ++ "d " ++ numberToString (hours % 24) ++ "h"
  else if hours > 0 then numberToString hours ++ "h " ++ numberToString (minutes % 60) ++ "m"
  else if minutes > 0 then numberToString minutes ++ "m " ++ numberToString (seconds % 60) ++ "s"
  else numberToString seconds ++ "s"

/-! ## The browser page -/

/-- The closures `start()` hands to `setInterval`. -/
inductive Callback where
  | ping
  | healthCheck
  | saveStats
  deriving DecidableEq

/-- An armed `setInterval` timer. -/
structure Timer where
  id : Nat
  callback : Callback
  period : Nat
  deriving DecidableEq

/-- The object a persisted record parses to. A property is `none` when it is missing or `null`
(`JSON.stringify` writes `null` for `NaN`). Property values that are not integers (fractions,
strings, nested objects) are not covered by the embedding. -/
structure SavedData where
  startTime : Option Int
  pingCount : Option Int
  lastPing : Option Int
  errors : Option Int
  successRate : Option Int
  savedAt : Option Int
  deriving DecidableEq

/-- A string held by `localStorage`, classified by what the script can observe of it: the empty
string (falsy), a text `JSON.parse` rejects, the text `null`, or a text that parses to an object
with integer properties. -/
inductive StoredText where
  | empty
  | malformed
  | jsonNull
  | json (data : SavedData)
  deriving DecidableEq

/-- Truthiness of a string: only the empty string is falsy. -/
def StoredText.truthy : StoredText → Bool
  | .empty => false
  | _ => true

/-- The function `JSON.parse`: it throws on a text that is not JSON, and yields `null`
(`none`) on the text `null`. -/
def JSON.parse : StoredText → Except String (Option SavedData)
  | .empty => .error "SyntaxError"
  | .malformed => .error "SyntaxError"
  | .jsonNull => .ok none
  | .json data => .ok (some data)

/-- The call `JSON.stringify({ ...stats, savedAt })`. -/
def JSON.stringify (stats : Stats) (savedAt : Nat) : StoredText :=
  .json
    { startTime := some stats.startTime
      pingCount := some stats.pingCount
      lastPing := stats.lastPing.map Int.ofNat
      errors := some stats.errors
      successRate := match stats.successRate with
        | .int n => some n
        | .nan => none
      savedAt := some savedAt }

/-- The `localStorage` object: its entries, whether a write is refused (quota exceeded, storage
disabled), and the `setItem` calls received so far. -/
structure LocalStorage where
  items : String → Option StoredText
  quotaExceeded : Bool
  setItemCalls : List (String × StoredText)

/-- The call `localStorage.getItem(key)`; `none` is `null`. -/
def LocalStorage.getItem (s : LocalStorage) (key : String) : Option StoredText :=
  s.items key

/-- The call `localStorage.setItem(key, value)`: the storage afterwards and the exception it
threw, if any. -/
def LocalStorage.setItem (s : LocalStorage) (key : String) (value : StoredText) :
    LocalStorage × Option String :=
  let s1 := { s with setItemCalls := s.setItemCalls ++ [(key, value)] }
  if s.quotaExceeded then (s1, some "QuotaExceededError")
  else ({ s1 with items := fun k => if k = key then some value else s.items k }, none)

/-- The two console streams the script writes to. -/
inductive Stream where
  | log
  | error
  deriving DecidableEq

/-- One console line: the stream, the tag `[KeepAlive]`, the time it was printed at (standing for
`toLocaleTimeString()`), and the message. -/
structure LogLine where
  stream : Stream
  tag : String
  time : Nat
  message : String
  deriving DecidableEq

/-- The second argument of `log`: `info` (the default, and any value other than the string
`error`) or `error`. -/
inductive LogType where
  | info
  | error
  deriving DecidableEq

/-- The object `performance.memory`. -/
structure HeapInfo where
  usedJSHeapSize : Nat
  totalJSHeapSize : Nat
  jsHeapSizeLimit : Nat
  deriving DecidableEq

/-- The object `getMemoryUsage` returns. -/
structure MemoryUsage where
  used : Nat
  total : Nat
  limit : Nat
  deriving DecidableEq

/-- The `checks` object of `healthCheck`, the payload of the `keepalive:healthcheck` event. -/
structure HealthSnapshot where
  timestamp : Nat
  uptime : Int
  pingCount : Int
  successRate : Num
  errors : Int
  memory : Option MemoryUsage
  online : Bool
  deriving DecidableEq

/-- The part of the browser page the controller reads and writes. `visibilityListeners` and
`beforeUnloadListeners` count the handlers this controller registered (each registration adds a new
closure, so none is merged with an earlier one); `pendingSweeps` counts the `ping()` calls that
are waiting for their probes to settle. -/
structure Page where
  now : Nat
  localStorage : LocalStorage
  timers : List Timer
  nextTimerId : Nat
  visibilityState : VisibilityState
  visibilityListeners : Nat
  beforeUnloadListeners : Nat
  pendingSweeps : Nat
  console : List LogLine
  dispatched : List HealthSnapshot
  memory : Option HeapInfo
  onLine : Bool

/-- One controller instance together with the page it runs in. -/
structure World where
  keepAlive : KeepAliveSystem
  page : Page

/-- The state right after `new KeepAliveSystem(config)` in a page where nothing of this
controller exists yet: no timer, no listener, no sweep in flight. -/
def World.fresh (config : ConfigArg) (page : Page) : World where
  keepAlive := KeepAliveSystem.new config page.now
  page :=
    { page with
      timers := []
      visibilityListeners := 0
      beforeUnloadListeners := 0
      pendingSweeps := 0 }

/-! ## Methods -/

/-- The method `log(message, type)`: without `debug` only errors are printed. -/
def log (w : World) (message : String) (type : LogType) : World :=
  if !w.keepAlive.config.debug && type != .error then w
  else
    let stream := if type = .error then Stream.error else Stream.log
    { w with page := { w.page with
        console := w.page.console ++ [⟨stream, "[KeepAlive]", w.page.now, message⟩] } }

/-- The method `saveStats()`: a refused write is caught and logged. -/
def saveStats (w : World) : World :=
  let data := JSON.stringify w.keepAlive.stats w.page.now
  match w.page.localStorage.setItem w.keepAlive.config.storageKey data with
  | (storage, none) => { w with page := { w.page with localStorage := storage } }
  | (storage, some _) =>
    log { w with page := { w.page with localStorage := storage } } "Error saving stats" .error

/-- The method `loadStats()`: only `pingCount` and `errors` are read from the stored record. A
text that does not parse, or parses to `null` (reading a property of it throws), is caught and
logged. -/
def loadStats (w : World) : World :=
  match w.page.localStorage.getItem w.keepAlive.config.storageKey with
  | none => w
  | some saved =>
    if saved.truthy then
      match JSON.parse saved with
      | .error _ => log w "Error loading stats" .error
      | .ok none => log w "Error loading stats" .error
      | .ok (some data) =>
        let stats := { w.keepAlive.stats with
          pingCount := orInt data.pingCount 0
          errors := orInt data.errors 0 }
        log { w with keepAlive := { w.keepAlive with stats := stats } }
          "Stats loaded from storage" .info
    else w

/-- The method `pingPage(page)`, given what `fetch` does: the world after it (it may log) and the
state its promise settles to. -/
def pingPage (w : World) (page : String) (fetched : FetchResult) : World × Settled ProbeOutcome :=
  let attempt : Except String ProbeOutcome :=
    match fetched with
    | .threw message => .error message
    | .response ok status =>
      if !ok then .error ("HTTP " ++ toString status)
      else .ok ⟨page, "success", none⟩
  match attempt with
  | .ok outcome => (w, .fulfilled outcome)
  | .error message =>
    (log w ("Error ping " ++ page ++ ": " ++ message) .error,
      .fulfilled ⟨page, "error", some message⟩)

/-- The probes of one sweep, `pagesToPing.map(page => this.pingPage(page))`, settled. -/
def pingPages (w : World) (fetch : String → FetchResult) :
    List String → World × List (Settled ProbeOutcome)
  | [] => (w, [])
  | page :: pages =>
    let (w1, r) := pingPage w page (fetch page)
    let (w2, rs) := pingPages w1 fetch pages
    (w2, r :: rs)

/-- The value `Math.round((successful / total) * 100)` for `successful ≤ total`: `0 / 0` is
`NaN`; otherwise the quotient is rounded to a double, the product with 100 is rounded to a
double, and `Math.round` takes the nearest integer, a half going upwards. -/
def roundedRate (successful total : Nat) : Num :=
  if total = 0 then .nan
  else
    let q := roundRatio successful total
    let p := roundRatio (q.1 * 100) (2 ^ q.2)
    .int (Int.ofNat ((2 * p.1 + 2 ^ p.2) / 2 ^ (p.2 + 1)))

/-- The synchronous part of `ping()`, up to the `await`: the sweep is counted and stamped, and its
probes are in flight. -/
def pingStart (w : World) : World :=
  { keepAlive := { w.keepAlive with stats := { w.keepAlive.stats with
      pingCount := addDouble w.keepAlive.stats.pingCount 1
      lastPing := some w.page.now } }
    page := { w.page with pendingSweeps := w.page.pendingSweeps + 1 } }

/-- The part of `ping()` after the `await`, given the settled results. -/
def pingResume (w : World) (results : List (Settled ProbeOutcome)) : World :=
  let successful := (results.filter (fun r => r.status = "fulfilled")).length
  let total := results.length
  let w1 : World := { w with keepAlive := { w.keepAlive with stats := { w.keepAlive.stats with
    successRate := roundedRate successful total } } }
  let w2 : World :=
    if successful < total then
      { w1 with keepAlive := { w1.keepAlive with stats := { w1.keepAlive.stats with
        errors := addDouble w1.keepAlive.stats.errors
          (Int.ofNat total - Int.ofNat successful) } } }
    else w1
  let w3 := log w2
    ("Ping completed: " ++ toString successful ++ "/" ++ toString total ++ " successful") .info
  saveStats w3

/-- The probes of one in-flight sweep settle and `ping()` runs to its end. -/
def pingSettle (w : World) (fetch : String → FetchResult) : World :=
  let (w1, results) := pingPages w fetch w.keepAlive.config.pagesToPing
  let w2 := pingResume w1 results
  { w2 with page := { w2.page with pendingSweeps := w2.page.pendingSweeps - 1 } }

/-- Time passes. -/
def advance (w : World) (ms : Nat) : World :=
  { w with page := { w.page with now := w.page.now + ms } }

/-- One whole sweep `await ping()` with nothing else in between: the probes behave as `fetch`
says and take `elapsed` milliseconds. -/
def ping (w : World) (fetch : String → FetchResult) (elapsed : Nat) : World :=
  pingSettle (advance (pingStart w) elapsed) fetch

/-- The value `Math.round(bytes / 1048576)`; the division by a power of two is exact. -/
def roundedMegabytes (bytes : Nat) : Nat :=
  (2 * bytes + 1048576) / 2097152

/-- The method `getMemoryUsage()`; `none` is `null`. -/
def getMemoryUsage (w : World) : Option MemoryUsage :=
  match w.page.memory with
  | some m =>
    some
      { used := roundedMegabytes m.usedJSHeapSize
        total := roundedMegabytes m.totalJSHeapSize
        limit := roundedMegabytes m.jsHeapSizeLimit }
  | none => none

/-- The method `healthCheck()`: it reads the statistics and dispatches the snapshot. The second
`log` call passes the snapshot as `type`, which is not the string `error`. -/
def healthCheck (w : World) : World :=
  let w1 := log w "Running health check..." .info
  let checks : HealthSnapshot :=
    { timestamp := w1.page.now
      uptime := Int.ofNat w1.page.now - Int.ofNat w1.keepAlive.stats.startTime
      pingCount := w1.keepAlive.stats.pingCount
      successRate := w1.keepAlive.stats.successRate
      errors := w1.keepAlive.stats.errors
      memory := getMemoryUsage w1
      online := w1.page.onLine }
  let w2 := log w1 "Health check completed" .info
  { w2 with page := { w2.page with dispatched := w2.page.dispatched ++ [checks] } }

/-- The call `setInterval(callback, period)`: the timer is armed under a new handle. -/
def setInterval (w : World) (callback : Callback) (period : Nat) : World × Nat :=
  ({ w with page := { w.page with
      timers := w.page.timers ++ [⟨w.page.nextTimerId, callback, period⟩]
      nextTimerId := w.page.nextTimerId + 1 } },
    w.page.nextTimerId)

/-- The call `clearInterval(timer)`. -/
def clearInterval (w : World) (timer : Nat) : World :=
  { w with page := { w.page with timers := w.page.timers.filter (fun t => t.id != timer) } }

/-- The statement `this.intervals.push(timer)`. -/
def pushInterval (w : World) (timer : Nat) : World :=
  { w with keepAlive := { w.keepAlive with intervals := w.keepAlive.intervals ++ [timer] } }

/-- The method `start()`: one sweep is started at once (its promise is not awaited), then the
three timers are armed. -/
def start (w : World) : World :=
  let w1 := pingStart w
  let (w2, pingTimer) := setInterval w1 .ping w1.keepAlive.config.pingInterval
  let w3 := pushInterval w2 pingTimer
  let (w4, healthTimer) := setInterval w3 .healthCheck w3.keepAlive.config.healthCheckInterval
  let w5 := pushInterval w4 healthTimer
  let (w6, saveTimer) := setInterval w5 .saveStats 30000
  pushInterval w6 saveTimer

/-- The method `stop()`. -/
def stop (w : World) : World :=
  let w1 := w.keepAlive.intervals.foldl clearInterval w
  let w2 : World := { w1 with keepAlive := { w1.keepAlive with intervals := [] } }
  let w3 : World := { w2 with keepAlive := { w2.keepAlive with isActive := false } }
  let w4 := saveStats w3
  log w4 "Keep-alive system stopped" .info

/-- The method `setupVisibilityHandler()`: one more `visibilitychange` listener. -/
def setupVisibilityHandler (w : World) : World :=
  { w with page := { w.page with visibilityListeners := w.page.visibilityListeners + 1 } }

/-- The method `setupBeforeUnload()`: one more `beforeunload` listener. -/
def setupBeforeUnload (w : World) : World :=
  { w with page := { w.page with beforeUnloadListeners := w.page.beforeUnloadListeners + 1 } }

/-- The method `init()`. -/
def init (w : World) : World :=
  if w.keepAlive.isActive then log w "Keep-alive system already running" .info
  else
    let w1 := log w "Initializing keep-alive system..." .info
    let w2 := loadStats w1
    let w3 := start w2
    let w4 := setupVisibilityHandler w3
    let w5 := setupBeforeUnload w4
    let w6 : World := { w5 with keepAlive := { w5.keepAlive with isActive := true } }
    log w6 "Keep-alive system started successfully" .info

/-! ## Events of the page -/

/-- The body of the `visibilitychange` listener. -/
def onVisibilityChange (w : World) : World :=
  if w.page.visibilityState = .visible then
    pingStart (log w "Page became visible - running immediate ping" .info)
  else w

/-- The page changes to visibility `state` and every registered listener runs. -/
def visibilityChange (w : World) (state : VisibilityState) : World :=
  Nat.iterate onVisibilityChange w.page.visibilityListeners
    { w with page := { w.page with visibilityState := state } }

/-- The page is about to unload and every registered `beforeunload` listener runs. -/
def beforeUnload (w : World) : World :=
  Nat.iterate saveStats w.page.beforeUnloadListeners w

/-- What an armed timer runs when it fires. -/
def runCallback (w : World) : Callback → World
  | .ping => pingStart w
  | .healthCheck => healthCheck w
  | .saveStats => saveStats w

/-- The timer with handle `timer` fires; a handle that is not armed runs nothing. -/
def timerFires (w : World) (timer : Nat) : World :=
  match w.page.timers.find? (fun t => t.id == timer) with
  | some t => runCallback w t.callback
  | none => w

/-- The calls a user of the controller can make. -/
inductive Call where
  | init
  | stop
  deriving DecidableEq

/-- Effect of one call. -/
def Call.run (w : World) : Call → World
  | .init => KeepAlive.init w
  | .stop => KeepAlive.stop w

/-- Effect of a sequence of calls, first to last. -/
def runCalls (w : World) (calls : List Call) : World :=
  calls.foldl Call.run w

/-- Everything that can happen to a controller in its page. -/
inductive Event where
  | call (c : Call)
  | visibility (state : VisibilityState)
  | unload
  | timer (id : Nat)
  | settled (fetch : String → FetchResult)
  | elapsed (ms : Nat)

/-- Effect of one event; probes can only settle for a sweep that is in flight. -/
def Event.run (w : World) : Event → World
  | .call c => c.run w
  | .visibility state => visibilityChange w state
  | .unload => beforeUnload w
  | .timer id => timerFires w id
  | .settled fetch => if w.page.pendingSweeps = 0 then w else pingSettle w fetch
  | .elapsed ms => advance w ms

/-- Effect of a sequence of events, first to last. -/
def runEvents (w : World) (events : List Event) : World :=
  events.foldl Event.run w

/-- A page with an empty, writable storage and nothing registered, at time `now`. -/
def Page.blank (now : Nat) : Page where
  now := now
  localStorage := ⟨fun _ => none, false, []⟩
  timers := []
  nextTimerId := 1
  visibilityState := .visible
  visibilityListeners := 0
  beforeUnloadListeners := 0
  pendingSweeps := 0
  console := []
  dispatched := []
  memory := none
  onLine := true

/-- A transport on which two of the five default pages cannot be reached. -/
def twoUnreachable (page : String) : FetchResult :=
  if page = "/about.html" ∨ page = "/contact.html" then .threw "Failed to fetch"
  else .response true 200

/-- The storage `saveStats` leaves behind when the write is accepted. -/
def LocalStorage.written (s : LocalStorage) (key : String) (value : StoredText) : LocalStorage :=
  { items := fun k => if k = key then some value else s.items k
    quotaExceeded := s.quotaExceeded
    setItemCalls := s.setItemCalls ++ [(key, value)] }

/-- The storage `saveStats` leaves behind when the write is refused. -/
def LocalStorage.refused (s : LocalStorage) (key : String) (value : StoredText) : LocalStorage :=
  { s with setItemCalls := s.setItemCalls ++ [(key, value)] }

/-- A controller built with `{ debug: true }` in a blank page at time 0. -/
def sampleWorld : World :=
  World.fresh ⟨none, none, none, some true⟩ (Page.blank 0)

/-- The state right after `new KeepAliveSystem(config).init()`, as the script does on load. -/
def World.started (config : ConfigArg) (page : Page) : World :=
  init (World.fresh config page)

/-- The step from `w` to `v` leaves the lifecycle state alone: configuration, `isActive` flag,
timer handles, armed timers and registered listeners. -/
def SameControl (w v : World) : Prop :=
  v.keepAlive.config = w.keepAlive.config ∧
  v.keepAlive.isActive = w.keepAlive.isActive ∧
  v.keepAlive.intervals = w.keepAlive.intervals ∧
  v.page.timers = w.page.timers ∧
  v.page.nextTimerId = w.page.nextTimerId ∧
  v.page.visibilityListeners = w.page.visibilityListeners ∧
  v.page.beforeUnloadListeners = w.page.beforeUnloadListeners

/-- The armed timers are exactly the handles the controller holds, and an inactive controller
holds none. -/
def TimersOwned (w : World) : Prop :=
  w.page.timers.map Timer.id = w.keepAlive.intervals ∧
  (w.keepAlive.isActive = false → w.keepAlive.intervals = [])

/-- A blank page at time `now` whose storage holds the record `data` under the key of the
controller. -/
def Page.holding (now : Nat) (data : SavedData) : Page :=
  { Page.blank now with
    localStorage := ⟨fun k => if k = "marisol_keepalive" then some (.json data) else none,
      false, []⟩ }

/-- Whether the event is a call of `init()` or `stop()`, as opposed to something the page does. -/
def Event.isCall : Event → Bool
  | .call _ => true
  | _ => false

/-! ## Frame lemmas: what `log`, `saveStats` and `loadStats` leave alone -/

@[simp]
theorem log_keepAlive (w : World) (m : String) (t : LogType) :
    (log w m t).keepAlive = w.keepAlive := by
  unfold log; split <;> rfl

@[simp]
theorem log_now (w : World) (m : String) (t : LogType) :
    (log w m t).page.now = w.page.now := by
  unfold log; split <;> rfl

@[simp]
theorem log_localStorage (w : World) (m : String) (t : LogType) :
    (log w m t).page.localStorage = w.page.localStorage := by
  unfold log; split <;> rfl

@[simp]
theorem log_timers (w : World) (m : String) (t : LogType) :
    (log w m t).page.timers = w.page.timers := by
  unfold log; split <;> rfl

@[simp]
theorem log_nextTimerId (w : World) (m : String) (t : LogType) :
    (log w m t).page.nextTimerId = w.page.nextTimerId := by
  unfold log; split <;> rfl

@[simp]
theorem log_visibilityState (w : World) (m : String) (t : LogType) :
    (log w m t).page.visibilityState = w.page.visibilityState := by
  unfold log; split <;> rfl

@[simp]
theorem log_visibilityListeners (w : World) (m : String) (t : LogType) :
    (log w m t).page.visibilityListeners = w.page.visibilityListeners := by
  unfold log; split <;> rfl

@[simp]
theorem log_beforeUnloadListeners (w : World) (m : String) (t : LogType) :
    (log w m t).page.beforeUnloadListeners = w.page.beforeUnloadListeners := by
  unfold log; split <;> rfl

@[simp]
theorem log_pendingSweeps (w : World) (m : String) (t : LogType) :
    (log w m t).page.pendingSweeps = w.page.pendingSweeps := by
  unfold log; split <;> rfl

@[simp]
theorem log_dispatched (w : World) (m : String) (t : LogType) :
    (log w m t).page.dispatched = w.page.dispatched := by
  unfold log; split <;> rfl

@[simp]
theorem log_memory (w : World) (m : String) (t : LogType) :
    (log w m t).page.memory = w.page.memory := by
  unfold log; split <;> rfl

@[simp]
theorem log_onLine (w : World) (m : String) (t : LogType) :
    (log w m t).page.onLine = w.page.onLine := by
  unfold log; split <;> rfl

theorem log_quiet (w : World) (m : String) (h : w.keepAlive.config.debug = false) :
    log w m .info = w := by
  unfold log; simp [h]

theorem log_console (w : World) (m : String) (h : w.keepAlive.config.debug = true) :
    (log w m .info).page.console = w.page.console ++ [⟨.log, "[KeepAlive]", w.page.now, m⟩] := by
  unfold log; simp [h]

theorem saveStats_eq (w : World) :
    saveStats w =
      if w.page.localStorage.quotaExceeded then
        log { w with page := { w.page with localStorage :=
          (w.page.localStorage.refused w.keepAlive.config.storageKey
            (JSON.stringify w.keepAlive.stats w.page.now)) } } "Error saving stats" .error
      else
        { w with page := { w.page with localStorage :=
          (w.page.localStorage.written w.keepAlive.config.storageKey
            (JSON.stringify w.keepAlive.stats w.page.now)) } } := by
  unfold saveStats LocalStorage.setItem LocalStorage.written LocalStorage.refused
  by_cases h : w.page.localStorage.quotaExceeded <;> simp [h]

@[simp]
theorem saveStats_keepAlive (w : World) : (saveStats w).keepAlive = w.keepAlive := by
  rw [saveStats_eq]; split <;> simp

@[simp]
theorem saveStats_now (w : World) : (saveStats w).page.now = w.page.now := by
  rw [saveStats_eq]; split <;> simp

@[simp]
theorem saveStats_timers (w : World) : (saveStats w).page.timers = w.page.timers := by
  rw [saveStats_eq]; split <;> simp

@[simp]
theorem saveStats_nextTimerId (w : World) : (saveStats w).page.nextTimerId = w.page.nextTimerId := by
  rw [saveStats_eq]; split <;> simp

@[simp]
theorem saveStats_visibilityState (w : World) : (saveStats w).page.visibilityState = w.page.visibilityState := by
  rw [saveStats_eq]; split <;> simp

@[simp]
theorem saveStats_visibilityListeners (w : World) : (saveStats w).page.visibilityListeners = w.page.visibilityListeners := by
  rw [saveStats_eq]; split <;> simp

@[simp]
theorem saveStats_beforeUnloadListeners (w : World) : (saveStats w).page.beforeUnloadListeners = w.page.beforeUnloadListeners := by
  rw [saveStats_eq]; split <;> simp

@[simp]
theorem saveStats_pendingSweeps (w : World) : (saveStats w).page.pendingSweeps = w.page.pendingSweeps := by
  rw [saveStats_eq]; split <;> simp

@[simp]
theorem saveStats_dispatched (w : World) : (saveStats w).page.dispatched = w.page.dispatched := by
  rw [saveStats_eq]; split <;> simp

@[simp]
theorem saveStats_memory (w : World) : (saveStats w).page.memory = w.page.memory := by
  rw [saveStats_eq]; split <;> simp

@[simp]
theorem saveStats_onLine (w : World) : (saveStats w).page.onLine = w.page.onLine := by
  rw [saveStats_eq]; split <;> simp

theorem saveStats_setItemCalls (w : World) :
    (saveStats w).page.localStorage.setItemCalls =
      w.page.localStorage.setItemCalls ++
        [(w.keepAlive.config.storageKey, JSON.stringify w.keepAlive.stats w.page.now)] := by
  rw [saveStats_eq]; split <;> simp [LocalStorage.written, LocalStorage.refused]

@[simp]
theorem saveStats_quotaExceeded (w : World) :
    (saveStats w).page.localStorage.quotaExceeded = w.page.localStorage.quotaExceeded := by
  rw [saveStats_eq]; split <;> simp [LocalStorage.written, LocalStorage.refused]

theorem saveStats_items (w : World) (h : w.page.localStorage.quotaExceeded = false) :
    (saveStats w).page.localStorage.items =
      fun k => if k = w.keepAlive.config.storageKey then
        some (JSON.stringify w.keepAlive.stats w.page.now) else w.page.localStorage.items k := by
  rw [saveStats_eq]; simp [h, LocalStorage.written]

theorem saveStats_console (w : World) (h : w.page.localStorage.quotaExceeded = false) :
    (saveStats w).page.console = w.page.console := by
  rw [saveStats_eq]; simp [h]

theorem loadStats_eq (w : World) :
    loadStats w =
      match w.page.localStorage.items w.keepAlive.config.storageKey with
      | some (.json data) =>
        log { w with keepAlive := { w.keepAlive with stats := { w.keepAlive.stats with
          pingCount := orInt data.pingCount 0
          errors := orInt data.errors 0 } } } "Stats loaded from storage" .info
      | some .malformed => log w "Error loading stats" .error
      | some .jsonNull => log w "Error loading stats" .error
      | some .empty => w
      | none => w := by
  unfold loadStats LocalStorage.getItem
  cases h : w.page.localStorage.items w.keepAlive.config.storageKey with
  | none => rfl
  | some saved => cases saved <;> simp [StoredText.truthy, JSON.parse]

@[simp]
theorem loadStats_config (w : World) :
    (loadStats w).keepAlive.config = w.keepAlive.config := by
  rw [loadStats_eq]; split <;> simp

@[simp]
theorem loadStats_isActive (w : World) :
    (loadStats w).keepAlive.isActive = w.keepAlive.isActive := by
  rw [loadStats_eq]; split <;> simp

@[simp]
theorem loadStats_intervals (w : World) :
    (loadStats w).keepAlive.intervals = w.keepAlive.intervals := by
  rw [loadStats_eq]; split <;> simp

@[simp]
theorem loadStats_startTime (w : World) :
    (loadStats w).keepAlive.stats.startTime = w.keepAlive.stats.startTime := by
  rw [loadStats_eq]; split <;> simp

@[simp]
theorem loadStats_lastPing (w : World) :
    (loadStats w).keepAlive.stats.lastPing = w.keepAlive.stats.lastPing := by
  rw [loadStats_eq]; split <;> simp

@[simp]
theorem loadStats_successRate (w : World) :
    (loadStats w).keepAlive.stats.successRate = w.keepAlive.stats.successRate := by
  rw [loadStats_eq]; split <;> simp

@[simp]
theorem loadStats_now (w : World) : (loadStats w).page.now = w.page.now := by
  rw [loadStats_eq]; split <;> simp

@[simp]
theorem loadStats_localStorage (w : World) : (loadStats w).page.localStorage = w.page.localStorage := by
  rw [loadStats_eq]; split <;> simp

@[simp]
theorem loadStats_timers (w : World) : (loadStats w).page.timers = w.page.timers := by
  rw [loadStats_eq]; split <;> simp

@[simp]
theorem loadStats_nextTimerId (w : World) : (loadStats w).page.nextTimerId = w.page.nextTimerId := by
  rw [loadStats_eq]; split <;> simp

@[simp]
theorem loadStats_visibilityState (w : World) : (loadStats w).page.visibilityState = w.page.visibilityState := by
  rw [loadStats_eq]; split <;> simp

@[simp]
theorem loadStats_visibilityListeners (w : World) : (loadStats w).page.visibilityListeners = w.page.visibilityListeners := by
  rw [loadStats_eq]; split <;> simp

@[simp]
theorem loadStats_beforeUnloadListeners (w : World) : (loadStats w).page.beforeUnloadListeners = w.page.beforeUnloadListeners := by
  rw [loadStats_eq]; split <;> simp

@[simp]
theorem loadStats_pendingSweeps (w : World) : (loadStats w).page.pendingSweeps = w.page.pendingSweeps := by
  rw [loadStats_eq]; split <;> simp

@[simp]
theorem loadStats_dispatched (w : World) : (loadStats w).page.dispatched = w.page.dispatched := by
  rw [loadStats_eq]; split <;> simp

@[simp]
theorem loadStats_memory (w : World) : (loadStats w).page.memory = w.page.memory := by
  rw [loadStats_eq]; split <;> simp

@[simp]
theorem loadStats_onLine (w : World) : (loadStats w).page.onLine = w.page.onLine := by
  rw [loadStats_eq]; split <;> simp

/-! ## Double arithmetic below 2 ^ 53 -/

theorem exponentAux_spec (fuel n : Nat) (h : n ≤ fuel) (h0 : n ≠ 0) :
    2 ^ exponentAux fuel n ≤ n ∧ n < 2 ^ (exponentAux fuel n + 1) := by
  induction fuel generalizing n with
  | zero => omega
  | succ fuel ih =>
    unfold exponentAux
    split
    · constructor <;> simp <;> omega
    · have := ih (n / 2) (by omega) (by omega)
      obtain ⟨h1, h2⟩ := this
      rw [pow_succ] at h2 ⊢
      rw [pow_succ]
      constructor <;> omega

theorem exponent_spec (n : Nat) (h0 : n ≠ 0) :
    2 ^ exponent n ≤ n ∧ n < 2 ^ (exponent n + 1) :=
  exponentAux_spec n n (Nat.le_refl n) h0

theorem roundHalfEven_cases (n d : Nat) :
    roundHalfEven n d = n / d ∨ (roundHalfEven n d = n / d + 1 ∧ d ≤ 2 * (n % d)) := by
  unfold roundHalfEven
  simp only []
  split
  · exact Or.inl rfl
  · split
    · exact Or.inr ⟨rfl, by omega⟩
    · split
      · exact Or.inl rfl
      · exact Or.inr ⟨rfl, by omega⟩

/-- Below `2 ^ 53` the rounded quotient never reaches the next integer, so the floor of the
double quotient is the integer quotient. -/
theorem floorDiv_eq (a b : Nat) (ha : a < 2 ^ 53) (hb : 0 < b) : floorDiv a b = a / b := by
  unfold floorDiv
  by_cases hab : a < b
  · rw [if_pos hab, Nat.div_eq_of_lt hab]
    have : ¬ b * (2 ^ 54 - 1) ≤ a * 2 ^ 54 := by
      norm_num at ha ⊢
      omega
    rw [if_neg this]
  · rw [if_neg hab]
    have hab : b ≤ a := by omega
    have hQ0 : a / b ≠ 0 := by
      have := Nat.div_pos hab hb
      omega
    obtain ⟨he1, he2⟩ := exponent_spec (a / b) hQ0
    have hQlt : a / b < 2 ^ 53 := lt_of_le_of_lt (Nat.div_le_self a b) ha
    have he : exponent (a / b) ≤ 52 := by
      by_contra hc
      have h53 : 53 ≤ exponent (a / b) := by omega
      have : 2 ^ 53 ≤ 2 ^ exponent (a / b) := Nat.pow_le_pow_right (by norm_num) h53
      omega
    rw [if_pos he]
    generalize hQ : a / b = Q at *
    generalize hE : exponent Q = e at *
    have hP : 2 ^ (52 - e) * 2 ^ e = 2 ^ 52 := by
      rw [← pow_add]; congr 1; omega
    generalize hPd : 2 ^ (52 - e) = P at *
    have hdm := Nat.div_add_mod a b
    rw [hQ] at hdm
    have hr := Nat.mod_lt a hb
    have hQb : b * Q ≤ a := by omega
    have haQ : a < b * Q + b := by omega
    have hb2P : b < 2 * P := by
      have h1 : b * 2 ^ e ≤ b * Q := Nat.mul_le_mul_left b he1
      have h2 : b * 2 ^ e < 2 ^ 53 := by omega
      have h3 : (2 : Nat) ^ 53 = 2 * P * 2 ^ e := by
        rw [Nat.mul_assoc, hP]; norm_num
      rw [h3] at h2
      exact Nat.lt_of_mul_lt_mul_right h2
    have hN := Nat.div_add_mod (a * P) b
    have hrN := Nat.mod_lt (a * P) hb
    have hlow : Q * P ≤ a * P / b := by
      rw [Nat.le_div_iff_mul_le hb]
      calc Q * P * b = b * Q * P := by ring
        _ ≤ a * P := Nat.mul_le_mul_right P hQb
    have hup : a * P + P ≤ (Q + 1) * P * b := by
      calc a * P + P = (a + 1) * P := by ring
        _ ≤ (b * Q + b) * P := Nat.mul_le_mul_right P haQ
        _ = (Q + 1) * P * b := by ring
    have hq0 : a * P / b < (Q + 1) * P := by
      rw [Nat.div_lt_iff_lt_mul hb]
      omega
    apply Nat.div_eq_of_lt_le
    · rcases roundHalfEven_cases (a * P) b with h | ⟨h, _⟩ <;> rw [h] <;> omega
    · rcases roundHalfEven_cases (a * P) b with h | ⟨h, h2⟩
      · rw [h]; exact hq0
      · rw [h]
        by_contra hc
        have heq : a * P / b + 1 = (Q + 1) * P := by
          have : (Q + 1) * P = Q.succ * P := rfl
          omega
        have hmul : b * (a * P / b) + b = (Q + 1) * P * b := by
          calc b * (a * P / b) + b = b * (a * P / b + 1) := by ring
            _ = b * ((Q + 1) * P) := by rw [heq]
            _ = (Q + 1) * P * b := by ring
        omega

theorem numberToString_eq (x : Nat) (h : x < 2 ^ 53) : numberToString x = toString x := by
  unfold numberToString
  rw [if_pos]
  norm_num at h ⊢
  omega

theorem toDoubleInt_eq (x : Int) (h : x.natAbs ≤ 2 ^ 53) : toDoubleInt x = x := by
  unfold toDoubleInt toDouble
  rw [if_pos h]
  simp only [Int.ofNat_eq_coe]
  split <;> omega

/-- An addition whose exact sum has magnitude at most `2 ^ 53` is exact. -/
theorem addDouble_eq (x k : Int) (h : (x + k).natAbs ≤ 2 ^ 53) : addDouble x k = x + k :=
  toDoubleInt_eq (x + k) h

/-! ## formatUptime -/

/-- C4, counterexample: `2251799813689199872` is a double holding a non-negative integer, at
least one day. There `formatUptime` gives `26062497843d 15h`, because the quotient by 1000 is
rounded up to the next integer before the floor is taken, whereas the floor divisions of the
claim give `26062497843d 14h`. -/
theorem formatUptime_rounds_quotient :
    toDouble 2251799813689199872 = 2251799813689199872 ∧
    86400000 ≤ 2251799813689199872 ∧
    formatUptime 2251799813689199872 = "26062497843d 15h" ∧
    toString (2251799813689199872 / 1000 / 60 / 60 / 24) ++ "d " ++
      toString (2251799813689199872 / 1000 / 60 / 60 % 24) ++ "h" = "26062497843d 14h" ∧
    floorDiv 2251799813689199872 1000 = 2251799813689199872 / 1000 + 1 := by
  decide

/-- C4, amended: for every non-negative integer `ms` below `2 ^ 53`, with `s = ms / 1000`,
`m = s / 60`, `h = m / 60`, `d = h / 24` (floor divisions), `formatUptime ms` is `Xd Yh` with
`X = d`, `Y = h mod 24` when `ms ≥ 86400000`; else `Xh Ym` with `X = h`, `Y = m mod 60` when
`ms ≥ 3600000`; else `Xm Ys` with `X = m`, `Y = s mod 60` when `ms ≥ 60000`; else `Xs` with
`X = s`. The second number is below 24, 60, 60 respectively, and the five sample values of the
specification come out as stated. -/
theorem formatUptime_spec (ms : Nat) (hms : ms < 2 ^ 53) :
    formatUptime ms =
      (if 86400000 ≤ ms then
        toString (ms / 1000 / 60 / 60 / 24) ++ "d " ++ toString (ms / 1000 / 60 / 60 % 24) ++ "h"
      else if 3600000 ≤ ms then
        toString (ms / 1000 / 60 / 60) ++ "h " ++ toString (ms / 1000 / 60 % 60) ++ "m"
      else if 60000 ≤ ms then
        toString (ms / 1000 / 60) ++ "m " ++ toString (ms / 1000 % 60) ++ "s"
      else toString (ms / 1000) ++ "s") ∧
    ms / 1000 / 60 / 60 % 24 < 24 ∧ ms / 1000 / 60 % 60 < 60 ∧ ms / 1000 % 60 < 60 ∧
    formatUptime 999 = "0s" ∧ formatUptime 61000 = "1m 1s" ∧ formatUptime 3661000 = "1h 1m" ∧
    formatUptime 90000000 = "1d 1h" ∧ formatUptime 90061000 = "1d 1h" := by
  refine ⟨?_, by omega, by omega, by omega, by decide, by decide, by decide, by decide, by decide⟩
  have hs : ms / 1000 < 2 ^ 53 := lt_of_le_of_lt (Nat.div_le_self _ _) hms
  have hm : ms / 1000 / 60 < 2 ^ 53 := lt_of_le_of_lt (Nat.div_le_self _ _) hs
  have hh : ms / 1000 / 60 / 60 < 2 ^ 53 := lt_of_le_of_lt (Nat.div_le_self _ _) hm
  have hd : ms / 1000 / 60 / 60 / 24 < 2 ^ 53 := lt_of_le_of_lt (Nat.div_le_self _ _) hh
  have e1 : floorDiv ms 1000 = ms / 1000 := floorDiv_eq _ _ hms (by norm_num)
  have e2 : floorDiv (ms / 1000) 60 = ms / 1000 / 60 := floorDiv_eq _ _ hs (by norm_num)
  have e3 : floorDiv (ms / 1000 / 60) 60 = ms / 1000 / 60 / 60 :=
    floorDiv_eq _ _ hm (by norm_num)
  have e4 : floorDiv (ms / 1000 / 60 / 60) 24 = ms / 1000 / 60 / 60 / 24 :=
    floorDiv_eq _ _ hh (by norm_num)
  have n1 := numberToString_eq _ hs
  have n2 := numberToString_eq _ hm
  have n3 := numberToString_eq _ hh
  have n4 := numberToString_eq _ hd
  have n5 : numberToString (ms / 1000 / 60 / 60 % 24) = toString (ms / 1000 / 60 / 60 % 24) :=
    numberToString_eq _ (by norm_num; omega)
  have n6 : numberToString (ms / 1000 / 60 % 60) = toString (ms / 1000 / 60 % 60) :=
    numberToString_eq _ (by norm_num; omega)
  have n7 : numberToString (ms / 1000 % 60) = toString (ms / 1000 % 60) :=
    numberToString_eq _ (by norm_num; omega)
  unfold formatUptime
  simp only [e1, e2, e3, e4, n1, n2, n3, n4, n5, n6, n7]
  have h1 : (ms / 1000 / 60 / 60 / 24 > 0) ↔ 86400000 ≤ ms := by omega
  have h2 : (ms / 1000 / 60 / 60 > 0) ↔ 3600000 ≤ ms := by omega
  have h3 : (ms / 1000 / 60 > 0) ↔ 60000 ≤ ms := by omega
  simp only [h1, h2, h3]

/-- Witness of C4: one day, one hour, one minute and one second. -/
theorem formatUptime_spec_witness :
    90061000 < 2 ^ 53 ∧ formatUptime 90061000 = "1d 1h" :=
  ⟨by decide, (formatUptime_spec 90061000 (by decide)).1.trans (by decide)⟩

/-! ## pingPage -/

/-- C2: for every page path and every behaviour of the transport, `pingPage` never raises: its
promise is fulfilled with an outcome carrying the same page path, whose status is `success`
exactly when a response with `ok` true was received, and otherwise `error` with the description
`HTTP <status>` for a non-ok response and the thrown message for a transport error. -/
theorem pingPage_never_raises (w : World) (page : String) (fetched : FetchResult) :
    (∃ outcome, (pingPage w page fetched).2 = .fulfilled outcome ∧ outcome.page = page ∧
      (outcome.status = "success" ∨ outcome.status = "error") ∧
      (outcome.status = "success" ↔ ∃ status, fetched = .response true status)) ∧
    (pingPage w page fetched).2 =
      (match fetched with
        | .response true _ => .fulfilled ⟨page, "success", none⟩
        | .response false status => .fulfilled ⟨page, "error", some ("HTTP " ++ toString status)⟩
        | .threw message => .fulfilled ⟨page, "error", some message⟩) ∧
    (pingPage w page fetched).1.keepAlive = w.keepAlive := by
  cases fetched with
  | threw message => simp [pingPage]
  | response ok status => cases ok <;> simp [pingPage]

/-! ## One sweep -/

@[simp]
theorem pingPage_keepAlive (w : World) (page : String) (fetched : FetchResult) :
    (pingPage w page fetched).1.keepAlive = w.keepAlive := by
  cases fetched with
  | threw message => simp [pingPage]
  | response ok status => cases ok <;> simp [pingPage]

theorem pingPage_status (w : World) (page : String) (fetched : FetchResult) :
    (pingPage w page fetched).2.status = "fulfilled" := by
  cases fetched with
  | threw message => simp [pingPage, Settled.status]
  | response ok status => cases ok <;> simp [pingPage, Settled.status]

@[simp]
theorem pingPages_keepAlive (w : World) (fetch : String → FetchResult)
    (pages : List String) : (pingPages w fetch pages).1.keepAlive = w.keepAlive := by
  induction pages generalizing w with
  | nil => rfl
  | cons page pages ih => simp [pingPages, ih]

@[simp]
theorem pingPages_length (w : World) (fetch : String → FetchResult)
    (pages : List String) : (pingPages w fetch pages).2.length = pages.length := by
  induction pages generalizing w with
  | nil => rfl
  | cons page pages ih => simp [pingPages, ih]

/-- Every probe promise is fulfilled, so the filter of `ping` keeps every result. -/
theorem pingPages_all_fulfilled (w : World) (fetch : String → FetchResult)
    (pages : List String) :
    (pingPages w fetch pages).2.filter (fun r => r.status = "fulfilled") =
      (pingPages w fetch pages).2 := by
  induction pages generalizing w with
  | nil => rfl
  | cons page pages ih => simp [pingPages, ih, pingPage_status]

/-- Out of `n > 0` pages, `n` successes give the rate 100. -/
theorem roundedRate_self (n : Nat) (h : 0 < n) : roundedRate n n = .int 100 := by
  have hdiv : n * 2 ^ 52 / n = 2 ^ 52 := Nat.mul_div_cancel_left _ h
  have hmod : n * 2 ^ 52 % n = 0 := Nat.mul_mod_right _ _
  have hexp : exponent (2 ^ 52) = 52 := by decide
  have hshift : mantissaShift n n = 52 := by
    unfold mantissaShift
    simp only [hdiv, hexp]
    simp
  have hround : roundHalfEven (n * 2 ^ 52) n = 2 ^ 52 := by
    unfold roundHalfEven
    simp only [hdiv, hmod]
    simp [h]
  have hq : roundRatio n n = (2 ^ 52, 52) := by
    unfold roundRatio
    rw [if_neg (by omega), hshift, hround]
  have hp : roundRatio (2 ^ 52 * 100) (2 ^ 52) = (100 * 2 ^ 46, 46) := by decide
  unfold roundedRate
  rw [if_neg (by omega)]
  simp only [hq, hp]
  decide

/-- The statistics after one whole sweep: the rate is computed from as many successes as there
are pages, and `errors` is never touched. -/
theorem ping_stats (w : World) (fetch : String → FetchResult) (elapsed : Nat) :
    (ping w fetch elapsed).keepAlive.stats =
      { startTime := w.keepAlive.stats.startTime
        pingCount := addDouble w.keepAlive.stats.pingCount 1
        lastPing := some w.page.now
        errors := w.keepAlive.stats.errors
        successRate := roundedRate w.keepAlive.config.pagesToPing.length
          w.keepAlive.config.pagesToPing.length } := by
  simp [ping, pingSettle, pingResume, pingPages_all_fulfilled, pingStart, advance]

/-- C1 (the code departs from it): whatever the probes do, `ping` takes every settled probe
promise for a success, because `pingPage` turns each failure into a fulfilled promise. The rate is
therefore computed from `N` successes out of `N` and `errors` is never increased. With the five
default pages and two transport failures the sweep leaves `successRate = 100` (not
`round(100 * 3 / 5) = 60`), leaves `errors` as it was (not increased by 2) and logs
`5/5 successful` (not `3/5 successful`). -/
theorem ping_takes_failures_for_successes (w : World) (fetch : String → FetchResult)
    (elapsed : Nat) :
    (ping w fetch elapsed).keepAlive.stats.successRate =
      roundedRate w.keepAlive.config.pagesToPing.length w.keepAlive.config.pagesToPing.length ∧
    (ping w fetch elapsed).keepAlive.stats.errors = w.keepAlive.stats.errors ∧
    sampleWorld.keepAlive.config.pagesToPing.length = 5 ∧
    (sampleWorld.keepAlive.config.pagesToPing.filter
      (fun page => twoUnreachable page = .threw "Failed to fetch")).length = 2 ∧
    (ping sampleWorld twoUnreachable 25).keepAlive.stats.successRate = .int 100 ∧
    roundedRate 3 5 = .int 60 ∧
    (ping sampleWorld twoUnreachable 25).keepAlive.stats.errors =
      sampleWorld.keepAlive.stats.errors ∧
    (ping sampleWorld twoUnreachable 25).page.console.map LogLine.message =
      ["Error ping /about.html: Failed to fetch", "Error ping /contact.html: Failed to fetch",
        "Ping completed: 5/5 successful"] := by
  refine ⟨?_, ?_, by decide, by decide, by decide, by decide, by decide, by decide⟩
  · rw [ping_stats]
  · rw [ping_stats]

/-- C7 (the code departs from it): a controller built with `pagesToPing: []` keeps the empty
list, and one sweep then sets `successRate` to `Math.round((0 / 0) * 100)`, which is `NaN`,
whatever the rate `r` was before; only `errors` is left unchanged. -/
theorem ping_empty_list_gives_nan (pingInterval healthCheckInterval : Option Nat)
    (debug : Option Bool) (page : Page) (r : Num) (fetch : String → FetchResult)
    (elapsed : Nat) :
    (KeepAliveSystem.new ⟨pingInterval, healthCheckInterval, some [], debug⟩
      page.now).config.pagesToPing = [] ∧
    (ping ⟨{ KeepAliveSystem.new ⟨pingInterval, healthCheckInterval, some [], debug⟩ page.now with
        stats := { (KeepAliveSystem.new ⟨pingInterval, healthCheckInterval, some [], debug⟩
          page.now).stats with successRate := r } }, page⟩
      fetch elapsed).keepAlive.stats.successRate = .nan ∧
    (ping ⟨{ KeepAliveSystem.new ⟨pingInterval, healthCheckInterval, some [], debug⟩ page.now with
        stats := { (KeepAliveSystem.new ⟨pingInterval, healthCheckInterval, some [], debug⟩
          page.now).stats with successRate := r } }, page⟩
      fetch elapsed).keepAlive.stats.errors = 0 ∧
    (ping (World.fresh ⟨none, none, some [], none⟩ (Page.blank 0))
      (fun _ => .response true 200) 25).keepAlive.stats.successRate = .nan := by
  refine ⟨rfl, ?_, ?_, by decide⟩
  · rw [ping_stats]; simp [KeepAliveSystem.new, roundedRate]
  · rw [ping_stats]; simp [KeepAliveSystem.new]

/-! ## The persisted record -/

theorem orInt_some_zero (n : Int) : orInt (some n) 0 = n := by
  unfold orInt; split <;> simp_all

/-- What a controller loads from a storage that another controller with the same key has just
written. -/
theorem loadStats_after_saveStats (first second : World)
    (h : first.page.localStorage.quotaExceeded = false)
    (hkey : second.keepAlive.config.storageKey = first.keepAlive.config.storageKey)
    (hstore : second.page.localStorage = (saveStats first).page.localStorage) :
    (loadStats second).keepAlive.stats =
      { second.keepAlive.stats with
        pingCount := first.keepAlive.stats.pingCount
        errors := first.keepAlive.stats.errors } := by
  rw [loadStats_eq, hstore, saveStats_items first h]
  simp [hkey, JSON.stringify, orInt_some_zero]

/-- C3: round trip of the persisted record. A controller holding the statistics `record` saves
them to a storage that accepts the write; a freshly constructed controller (same storage key)
then loads them: its `pingCount` and `errors` become those of `record`, while its `startTime`,
`lastPing` and `successRate` stay exactly as the constructor set them. -/
theorem saveStats_loadStats_roundtrip (record : Stats) (config1 config2 : ConfigArg)
    (page1 page2 : Page) (h : page1.localStorage.quotaExceeded = false) :
    (loadStats ⟨KeepAliveSystem.new config2 page2.now, { page2 with localStorage :=
        (saveStats ⟨{ KeepAliveSystem.new config1 page1.now with stats := record },
          page1⟩).page.localStorage }⟩).keepAlive.stats =
      { (KeepAliveSystem.new config2 page2.now).stats with
        pingCount := record.pingCount
        errors := record.errors } ∧
    (KeepAliveSystem.new config2 page2.now).config.storageKey =
      (KeepAliveSystem.new config1 page1.now).config.storageKey := by
  exact ⟨loadStats_after_saveStats
    ⟨{ KeepAliveSystem.new config1 page1.now with stats := record }, page1⟩
    ⟨KeepAliveSystem.new config2 page2.now, { page2 with localStorage :=
      (saveStats ⟨{ KeepAliveSystem.new config1 page1.now with stats := record },
        page1⟩).page.localStorage }⟩ h rfl rfl, rfl⟩

/-- Witness of C3: the record `pingCount = 7`, `errors = 2` saved at time 5 and loaded by a
controller constructed at time 900. -/
theorem saveStats_loadStats_roundtrip_witness :
    (Page.blank 5).localStorage.quotaExceeded = false ∧
    (loadStats ⟨KeepAliveSystem.new ⟨none, none, none, none⟩ (Page.blank 900).now,
      { Page.blank 900 with localStorage :=
        (saveStats ⟨{ KeepAliveSystem.new ⟨none, none, none, none⟩ (Page.blank 5).now with
          stats := ⟨1, 7, some 4, 2, .int 80⟩ }, Page.blank 5⟩).page.localStorage }⟩).keepAlive.stats =
      ⟨900, 7, none, 2, .int 100⟩ :=
  ⟨rfl, (saveStats_loadStats_roundtrip ⟨1, 7, some 4, 2, .int 80⟩ ⟨none, none, none, none⟩
    ⟨none, none, none, none⟩ (Page.blank 5) (Page.blank 900) rfl).1⟩

/-! ## Lifecycle: start, stop, init -/

theorem loadStats_log_keepAlive (w : World) (m : String) (t : LogType) :
    (loadStats (log w m t)).keepAlive = (loadStats w).keepAlive := by
  rw [loadStats_eq, loadStats_eq]
  simp only [log_keepAlive, log_localStorage]
  split <;> simp

theorem start_keepAlive (w : World) :
    (start w).keepAlive =
      { w.keepAlive with
        stats := { w.keepAlive.stats with
          pingCount := addDouble w.keepAlive.stats.pingCount 1
          lastPing := some w.page.now }
        intervals := w.keepAlive.intervals ++
          [w.page.nextTimerId, w.page.nextTimerId + 1, w.page.nextTimerId + 2] } := by
  simp [start, setInterval, pushInterval, pingStart]

theorem start_page (w : World) :
    (start w).page =
      { w.page with
        timers := w.page.timers ++
          [⟨w.page.nextTimerId, .ping, w.keepAlive.config.pingInterval⟩,
            ⟨w.page.nextTimerId + 1, .healthCheck, w.keepAlive.config.healthCheckInterval⟩,
            ⟨w.page.nextTimerId + 2, .saveStats, 30000⟩]
        nextTimerId := w.page.nextTimerId + 3
        pendingSweeps := w.page.pendingSweeps + 1 } := by
  simp [start, setInterval, pushInterval, pingStart]

theorem foldl_clearInterval (handles : List Nat) (w : World) :
    handles.foldl clearInterval w =
      { w with page := { w.page with
        timers := w.page.timers.filter (fun t => !handles.contains t.id) } } := by
  induction handles generalizing w with
  | nil => simp
  | cons h hs ih =>
    simp only [List.foldl_cons, ih]
    simp only [clearInterval, List.filter_filter, List.contains_cons]
    congr 2
    apply List.filter_congr
    intro t _
    have hb : (t.id == h) = decide (t.id = h) := by
      by_cases ht : t.id = h <;> simp [ht]
    simp only [bne, hb]
    cases decide (t.id = h) <;> cases hs.contains t.id <;> rfl

theorem stop_keepAlive (w : World) :
    (stop w).keepAlive = { w.keepAlive with intervals := [], isActive := false } := by
  simp [stop, foldl_clearInterval]

theorem stop_timers (w : World) :
    (stop w).page.timers =
      w.page.timers.filter (fun t => !w.keepAlive.intervals.contains t.id) := by
  simp [stop, foldl_clearInterval]

@[simp]
theorem stop_now (w : World) : (stop w).page.now = w.page.now := by
  simp [stop, foldl_clearInterval]

@[simp]
theorem stop_nextTimerId (w : World) : (stop w).page.nextTimerId = w.page.nextTimerId := by
  simp [stop, foldl_clearInterval]

@[simp]
theorem stop_visibilityState (w : World) : (stop w).page.visibilityState = w.page.visibilityState := by
  simp [stop, foldl_clearInterval]

@[simp]
theorem stop_visibilityListeners (w : World) : (stop w).page.visibilityListeners = w.page.visibilityListeners := by
  simp [stop, foldl_clearInterval]

@[simp]
theorem stop_beforeUnloadListeners (w : World) : (stop w).page.beforeUnloadListeners = w.page.beforeUnloadListeners := by
  simp [stop, foldl_clearInterval]

@[simp]
theorem stop_pendingSweeps (w : World) : (stop w).page.pendingSweeps = w.page.pendingSweeps := by
  simp [stop, foldl_clearInterval]

@[simp]
theorem stop_dispatched (w : World) : (stop w).page.dispatched = w.page.dispatched := by
  simp [stop, foldl_clearInterval]

@[simp]
theorem stop_memory (w : World) : (stop w).page.memory = w.page.memory := by
  simp [stop, foldl_clearInterval]

@[simp]
theorem stop_onLine (w : World) : (stop w).page.onLine = w.page.onLine := by
  simp [stop, foldl_clearInterval]

theorem stop_setItemCalls (w : World) :
    (stop w).page.localStorage.setItemCalls =
      w.page.localStorage.setItemCalls ++
        [(w.keepAlive.config.storageKey, JSON.stringify w.keepAlive.stats w.page.now)] := by
  simp [stop, foldl_clearInterval, saveStats_setItemCalls]

theorem stop_items (w : World) (h : w.page.localStorage.quotaExceeded = false) :
    (stop w).page.localStorage.items =
      fun k => if k = w.keepAlive.config.storageKey then
        some (JSON.stringify w.keepAlive.stats w.page.now) else w.page.localStorage.items k := by
  have := saveStats_items
    ⟨{ w.keepAlive with intervals := [], isActive := false }, { w.page with
      timers := w.page.timers.filter (fun t => !w.keepAlive.intervals.contains t.id) }⟩ h
  simpa [stop, foldl_clearInterval] using this

theorem init_active (w : World) (h : w.keepAlive.isActive = true) :
    init w = log w "Keep-alive system already running" .info := by
  simp [init, h]

theorem init_inactive (w : World) (h : w.keepAlive.isActive = false) :
    init w =
      log
        { keepAlive := { (start (loadStats (log w "Initializing keep-alive system..."
            .info))).keepAlive with isActive := true }
          page := { (start (loadStats (log w "Initializing keep-alive system..." .info))).page with
            visibilityListeners :=
              (start (loadStats (log w "Initializing keep-alive system..."
                .info))).page.visibilityListeners + 1
            beforeUnloadListeners :=
              (start (loadStats (log w "Initializing keep-alive system..."
                .info))).page.beforeUnloadListeners + 1 } }
        "Keep-alive system started successfully" .info := by
  simp [init, h, setupVisibilityHandler, setupBeforeUnload]

theorem init_isActive (w : World) : (init w).keepAlive.isActive = true := by
  by_cases h : w.keepAlive.isActive = true
  · rw [init_active w h]; simpa using h
  · rw [init_inactive w (by simpa using h)]; simp

theorem init_intervals (w : World) (h : w.keepAlive.isActive = false) :
    (init w).keepAlive.intervals = w.keepAlive.intervals ++
      [w.page.nextTimerId, w.page.nextTimerId + 1, w.page.nextTimerId + 2] := by
  rw [init_inactive w h]; simp [start_keepAlive]

theorem init_timers (w : World) (h : w.keepAlive.isActive = false) :
    (init w).page.timers = w.page.timers ++
      [⟨w.page.nextTimerId, .ping, w.keepAlive.config.pingInterval⟩,
        ⟨w.page.nextTimerId + 1, .healthCheck, w.keepAlive.config.healthCheckInterval⟩,
        ⟨w.page.nextTimerId + 2, .saveStats, 30000⟩] := by
  rw [init_inactive w h]; simp [start_page]

theorem init_pendingSweeps (w : World) (h : w.keepAlive.isActive = false) :
    (init w).page.pendingSweeps = w.page.pendingSweeps + 1 := by
  rw [init_inactive w h]; simp [start_page]

theorem init_visibilityListeners (w : World) (h : w.keepAlive.isActive = false) :
    (init w).page.visibilityListeners = w.page.visibilityListeners + 1 := by
  rw [init_inactive w h]; simp [start_page]

theorem init_beforeUnloadListeners (w : World) (h : w.keepAlive.isActive = false) :
    (init w).page.beforeUnloadListeners = w.page.beforeUnloadListeners + 1 := by
  rw [init_inactive w h]; simp [start_page]

theorem init_pingCount (w : World) (h : w.keepAlive.isActive = false) :
    (init w).keepAlive.stats.pingCount =
      addDouble (loadStats w).keepAlive.stats.pingCount 1 := by
  rw [init_inactive w h]; simp [start_keepAlive, loadStats_log_keepAlive]

theorem init_config (w : World) : (init w).keepAlive.config = w.keepAlive.config := by
  by_cases h : w.keepAlive.isActive = true
  · rw [init_active w h]; simp
  · rw [init_inactive w (by simpa using h)]; simp [start_keepAlive]

theorem init_now (w : World) : (init w).page.now = w.page.now := by
  by_cases h : w.keepAlive.isActive = true
  · rw [init_active w h]; simp
  · rw [init_inactive w (by simpa using h)]; simp [start_page]

theorem init_localStorage (w : World) : (init w).page.localStorage = w.page.localStorage := by
  by_cases h : w.keepAlive.isActive = true
  · rw [init_active w h]; simp
  · rw [init_inactive w (by simpa using h)]; simp [start_page]

theorem log_page (w : World) (m : String) (t : LogType) :
    (log w m t).page = { w.page with console := (log w m t).page.console } := by
  unfold log; split <;> rfl

theorem timerFires_of_no_timers (w : World) (h : w.page.timers = []) (id : Nat) :
    timerFires w id = w := by
  simp [timerFires, h]

/-- C5, counterexample: the storage holds a record whose `pingCount` is `2 ^ 53`. After two
`init()` calls on a fresh controller the sweep count is still `2 ^ 53`: the increment of the one
immediate sweep is lost in the double addition, so the count has not grown by 1 over the value
loaded from storage. -/
theorem init_increment_lost_at_two_pow_53 :
    (loadStats (World.fresh ⟨none, none, none, none⟩
      (Page.holding 0 ⟨none, some 9007199254740992, none, some 0, none, none⟩))).keepAlive.stats.pingCount =
      9007199254740992 ∧
    (init (init (World.fresh ⟨none, none, none, none⟩
      (Page.holding 0 ⟨none, some 9007199254740992, none, some 0, none,
        none⟩)))).keepAlive.stats.pingCount = 9007199254740992 ∧
    (init (init (World.fresh ⟨none, none, none, none⟩
      (Page.holding 0 ⟨none, some 9007199254740992, none, some 0, none,
        none⟩)))).page.pendingSweeps = 1 := by
  decide

/-- C5, amended: `init` is idempotent. For every freshly constructed controller, a second
`init()` right after the first leaves the controller exactly as the first left it and starts no
sweep, arms no timer and registers no listener: the timer set holds exactly three timers and the
sweep count is the value loaded from storage incremented once, which is exactly 1 more than that
value when its magnitude is below `2 ^ 53`. More generally `init()` on a controller whose
`isActive` flag is true changes no field of the controller (and nothing of the page but, with
`debug` on, one console line). -/
theorem init_idempotent :
    (∀ (config : ConfigArg) (page : Page),
      (init (init (World.fresh config page))).keepAlive =
        (init (World.fresh config page)).keepAlive ∧
      (init (init (World.fresh config page))).page.timers =
        (init (World.fresh config page)).page.timers ∧
      (init (init (World.fresh config page))).page.pendingSweeps =
        (init (World.fresh config page)).page.pendingSweeps ∧
      (init (init (World.fresh config page))).page.visibilityListeners =
        (init (World.fresh config page)).page.visibilityListeners ∧
      (init (init (World.fresh config page))).page.beforeUnloadListeners =
        (init (World.fresh config page)).page.beforeUnloadListeners ∧
      (init (init (World.fresh config page))).keepAlive.intervals.length = 3 ∧
      (init (init (World.fresh config page))).page.timers.length = 3 ∧
      (init (init (World.fresh config page))).page.pendingSweeps = 1 ∧
      (init (init (World.fresh config page))).page.visibilityListeners = 1 ∧
      (init (init (World.fresh config page))).page.beforeUnloadListeners = 1 ∧
      (init (init (World.fresh config page))).keepAlive.stats.pingCount =
        addDouble (loadStats (World.fresh config page)).keepAlive.stats.pingCount 1 ∧
      ((loadStats (World.fresh config page)).keepAlive.stats.pingCount.natAbs < 2 ^ 53 →
        (init (init (World.fresh config page))).keepAlive.stats.pingCount =
          (loadStats (World.fresh config page)).keepAlive.stats.pingCount + 1)) ∧
    (∀ w : World, w.keepAlive.isActive = true →
      (init w).keepAlive = w.keepAlive ∧
      (init w).page = { w.page with console := (init w).page.console } ∧
      (w.keepAlive.config.debug = false → init w = w)) := by
  have general : ∀ w : World, w.keepAlive.isActive = true →
      (init w).keepAlive = w.keepAlive ∧
      (init w).page = { w.page with console := (init w).page.console } ∧
      (w.keepAlive.config.debug = false → init w = w) := by
    intro w h
    rw [init_active w h]
    exact ⟨log_keepAlive _ _ _, log_page _ _ _, fun hd => log_quiet _ _ hd⟩
  refine ⟨?_, general⟩
  intro config page
  have hfresh : (World.fresh config page).keepAlive.isActive = false := rfl
  obtain ⟨hk, hp, -⟩ := general (init (World.fresh config page)) (init_isActive _)
  have hcount := init_pingCount _ hfresh
  rw [hk, hp]
  refine ⟨rfl, rfl, rfl, rfl, rfl, ?_, ?_, ?_, ?_, ?_, hcount, fun hb => ?_⟩
  · rw [init_intervals _ hfresh]; rfl
  · show (init (World.fresh config page)).page.timers.length = 3
    rw [init_timers _ hfresh]; rfl
  · show (init (World.fresh config page)).page.pendingSweeps = 1
    rw [init_pendingSweeps _ hfresh]; rfl
  · show (init (World.fresh config page)).page.visibilityListeners = 1
    rw [init_visibilityListeners _ hfresh]; rfl
  · show (init (World.fresh config page)).page.beforeUnloadListeners = 1
    rw [init_beforeUnloadListeners _ hfresh]; rfl
  · rw [hcount]
    apply addDouble_eq
    have h53 : (2 : Nat) ^ 53 = 9007199254740992 := by norm_num
    rw [h53] at hb ⊢
    omega

/-- Witness of C5: on the sample controller, whose storage is empty, the loaded count is 0; the
second `init()` finds the controller active, leaves it unchanged, and the count is 1. -/
theorem init_idempotent_witness :
    (init sampleWorld).keepAlive.isActive = true ∧
    (init (init sampleWorld)).keepAlive = (init sampleWorld).keepAlive ∧
    (loadStats sampleWorld).keepAlive.stats.pingCount.natAbs < 2 ^ 53 ∧
    (init (init sampleWorld)).keepAlive.stats.pingCount =
      (loadStats sampleWorld).keepAlive.stats.pingCount + 1 :=
  ⟨by decide, (init_idempotent.2 (init sampleWorld) (by decide)).1, by decide,
    (init_idempotent.1 ⟨none, none, none, some true⟩ (Page.blank 0)).2.2.2.2.2.2.2.2.2.2.2
      (by decide)⟩

/-- C6: in the state reached by `init()` from a fresh controller (active, three armed timers),
`stop()` clears every handle of the timer set, leaves the timer set empty and no timer armed,
sets `isActive` to false and performs exactly one flush: one `setItem` call carrying the current
statistics (stored under the key when the storage accepts the write). Afterwards no timer handle
is armed, so a timer tick runs nothing: no sweep, no health check, no flush. -/
theorem stop_after_init (config : ConfigArg) (page : Page) :
    (World.started config page).keepAlive.isActive = true ∧
    (World.started config page).keepAlive.intervals =
      [page.nextTimerId, page.nextTimerId + 1, page.nextTimerId + 2] ∧
    (World.started config page).page.timers.map Timer.callback =
      [.ping, .healthCheck, .saveStats] ∧
    (World.started config page).page.timers.map Timer.id =
      (World.started config page).keepAlive.intervals ∧
    (∀ handle ∈ (World.started config page).keepAlive.intervals,
      ∀ t ∈ (stop (World.started config page)).page.timers, t.id ≠ handle) ∧
    (stop (World.started config page)).page.timers = [] ∧
    (stop (World.started config page)).keepAlive.intervals = [] ∧
    (stop (World.started config page)).keepAlive.isActive = false ∧
    (stop (World.started config page)).keepAlive.stats =
      (World.started config page).keepAlive.stats ∧
    (stop (World.started config page)).page.localStorage.setItemCalls =
      (World.started config page).page.localStorage.setItemCalls ++
        [("marisol_keepalive", JSON.stringify (World.started config page).keepAlive.stats
          (World.started config page).page.now)] ∧
    (page.localStorage.quotaExceeded = false →
      (stop (World.started config page)).page.localStorage.items "marisol_keepalive" =
        some (JSON.stringify (World.started config page).keepAlive.stats
          (World.started config page).page.now)) ∧
    (∀ id : Nat, timerFires (stop (World.started config page)) id =
      stop (World.started config page)) ∧
    (stop (World.started config page)).page.pendingSweeps =
      (World.started config page).page.pendingSweeps := by
  have hfresh : (World.fresh config page).keepAlive.isActive = false := rfl
  have hint : (World.started config page).keepAlive.intervals =
      [page.nextTimerId, page.nextTimerId + 1, page.nextTimerId + 2] := by
    show (init (World.fresh config page)).keepAlive.intervals = _
    rw [init_intervals _ hfresh]; rfl
  have htim : (World.started config page).page.timers =
      [⟨page.nextTimerId, .ping, (World.fresh config page).keepAlive.config.pingInterval⟩,
        ⟨page.nextTimerId + 1, .healthCheck,
          (World.fresh config page).keepAlive.config.healthCheckInterval⟩,
        ⟨page.nextTimerId + 2, .saveStats, 30000⟩] := by
    show (init (World.fresh config page)).page.timers = _
    rw [init_timers _ hfresh]; rfl
  have hkey : (World.started config page).keepAlive.config.storageKey = "marisol_keepalive" := by
    simp [World.started, init_config, World.fresh, KeepAliveSystem.new]
  have hstop : (stop (World.started config page)).page.timers = [] := by
    rw [stop_timers, hint, htim]; simp
  refine ⟨init_isActive _, hint, ?_, ?_, ?_, hstop, ?_, ?_, ?_, ?_, ?_, ?_, ?_⟩
  · rw [htim]; rfl
  · rw [htim, hint]; rfl
  · intro handle _ t ht; rw [hstop] at ht; cases ht
  · rw [stop_keepAlive]
  · rw [stop_keepAlive]
  · rw [stop_keepAlive]
  · rw [stop_setItemCalls, hkey]
  · intro hq
    have hq2 : (World.started config page).page.localStorage.quotaExceeded = false := by
      show (init (World.fresh config page)).page.localStorage.quotaExceeded = false
      rw [init_localStorage]; exact hq
    rw [stop_items _ hq2, hkey]; simp
  · intro id; exact timerFires_of_no_timers _ hstop id
  · simp

/-! ## Events that leave the lifecycle state alone -/

theorem SameControl.refl (w : World) : SameControl w w :=
  ⟨rfl, rfl, rfl, rfl, rfl, rfl, rfl⟩

theorem SameControl.trans {u v w : World} (h1 : SameControl u v) (h2 : SameControl v w) :
    SameControl u w := by
  obtain ⟨a1, a2, a3, a4, a5, a6, a7⟩ := h1
  obtain ⟨b1, b2, b3, b4, b5, b6, b7⟩ := h2
  exact ⟨b1.trans a1, b2.trans a2, b3.trans a3, b4.trans a4, b5.trans a5, b6.trans a6,
    b7.trans a7⟩

theorem sameControl_log (w : World) (m : String) (t : LogType) : SameControl w (log w m t) := by
  simp [SameControl]

theorem sameControl_saveStats (w : World) : SameControl w (saveStats w) := by
  simp [SameControl]

theorem sameControl_loadStats (w : World) : SameControl w (loadStats w) := by
  simp [SameControl]

theorem sameControl_pingStart (w : World) : SameControl w (pingStart w) := by
  simp [SameControl, pingStart]

theorem sameControl_advance (w : World) (ms : Nat) : SameControl w (advance w ms) := by
  simp [SameControl, advance]

theorem sameControl_healthCheck (w : World) : SameControl w (healthCheck w) := by
  simp [SameControl, healthCheck]

theorem sameControl_pingPage (w : World) (page : String) (fetched : FetchResult) :
    SameControl w (pingPage w page fetched).1 := by
  cases fetched with
  | threw message => simp [pingPage, SameControl]
  | response ok status => cases ok <;> simp [pingPage, SameControl]

theorem sameControl_pingPages (w : World) (fetch : String → FetchResult) (pages : List String) :
    SameControl w (pingPages w fetch pages).1 := by
  induction pages generalizing w with
  | nil => exact SameControl.refl w
  | cons page pages ih =>
    exact (sameControl_pingPage w page (fetch page)).trans (ih _)

theorem sameControl_pingResume (w : World) (results : List (Settled ProbeOutcome)) :
    SameControl w (pingResume w results) := by
  unfold pingResume
  refine SameControl.trans ?_ (sameControl_saveStats _)
  refine SameControl.trans ?_ (sameControl_log _ _ _)
  split <;> simp [SameControl]

theorem sameControl_pingSettle (w : World) (fetch : String → FetchResult) :
    SameControl w (pingSettle w fetch) := by
  have h1 := sameControl_pingPages w fetch w.keepAlive.config.pagesToPing
  have h2 := sameControl_pingResume (pingPages w fetch w.keepAlive.config.pagesToPing).1
    (pingPages w fetch w.keepAlive.config.pagesToPing).2
  have h3 := h1.trans h2
  simpa [SameControl, pingSettle] using h3

theorem sameControl_iterate (f : World → World) (hf : ∀ w, SameControl w (f w)) (n : Nat)
    (w : World) : SameControl w (f^[n] w) := by
  induction n generalizing w with
  | zero => exact SameControl.refl w
  | succ n ih => exact (hf w).trans (ih (f w))

theorem sameControl_onVisibilityChange (w : World) : SameControl w (onVisibilityChange w) := by
  unfold onVisibilityChange
  split
  · exact (sameControl_log _ _ _).trans (sameControl_pingStart _)
  · exact SameControl.refl w

theorem sameControl_visibilityChange (w : World) (state : VisibilityState) :
    SameControl w (visibilityChange w state) := by
  unfold visibilityChange
  refine SameControl.trans ?_ (sameControl_iterate _ sameControl_onVisibilityChange _ _)
  simp [SameControl]

theorem sameControl_beforeUnload (w : World) : SameControl w (beforeUnload w) :=
  sameControl_iterate _ sameControl_saveStats _ _

theorem sameControl_timerFires (w : World) (id : Nat) : SameControl w (timerFires w id) := by
  unfold timerFires
  split
  · rename_i t _
    cases t.callback
    · exact sameControl_pingStart w
    · exact sameControl_healthCheck w
    · exact sameControl_saveStats w
  · exact SameControl.refl w

/-! ## The armed timers are the handles the controller holds -/

theorem timersOwned_of_sameControl {w v : World} (h : SameControl w v) (hw : TimersOwned w) :
    TimersOwned v := by
  obtain ⟨-, h2, h3, h4, -, -, -⟩ := h
  unfold TimersOwned at *
  rw [h2, h3, h4]; exact hw

theorem filter_own_ids (timers : List Timer) :
    timers.filter (fun t => !(timers.map Timer.id).contains t.id) = [] := by
  rw [List.filter_eq_nil_iff]
  intro t ht
  simpa using ⟨t, ht, rfl⟩

theorem stop_timers_of_owned (w : World) (h : TimersOwned w) : (stop w).page.timers = [] := by
  rw [stop_timers, ← h.1]; exact filter_own_ids _

theorem timersOwned_stop (w : World) (h : TimersOwned w) : TimersOwned (stop w) := by
  refine ⟨?_, fun _ => ?_⟩
  · rw [stop_timers_of_owned w h, stop_keepAlive]; rfl
  · rw [stop_keepAlive]

theorem timersOwned_init (w : World) (h : TimersOwned w) : TimersOwned (init w) := by
  by_cases ha : w.keepAlive.isActive = true
  · rw [init_active w ha]; exact timersOwned_of_sameControl (sameControl_log _ _ _) h
  · have hf : w.keepAlive.isActive = false := by simpa using ha
    refine ⟨?_, fun hi => ?_⟩
    · rw [init_timers w hf, init_intervals w hf, List.map_append, h.1]; rfl
    · rw [init_isActive] at hi; cases hi

theorem timersOwned_event (w : World) (e : Event) (h : TimersOwned w) :
    TimersOwned (e.run w) := by
  cases e with
  | call c =>
    cases c
    · exact timersOwned_init w h
    · exact timersOwned_stop w h
  | visibility state => exact timersOwned_of_sameControl (sameControl_visibilityChange w state) h
  | unload => exact timersOwned_of_sameControl (sameControl_beforeUnload w) h
  | timer id => exact timersOwned_of_sameControl (sameControl_timerFires w id) h
  | settled fetch =>
    show TimersOwned (if w.page.pendingSweeps = 0 then w else pingSettle w fetch)
    split
    · exact h
    · exact timersOwned_of_sameControl (sameControl_pingSettle w fetch) h
  | elapsed ms => exact timersOwned_of_sameControl (sameControl_advance w ms) h

theorem timersOwned_runEvents (w : World) (events : List Event) (h : TimersOwned w) :
    TimersOwned (runEvents w events) := by
  induction events generalizing w with
  | nil => exact h
  | cons e es ih => exact ih _ (timersOwned_event w e h)

theorem timersOwned_fresh (config : ConfigArg) (page : Page) :
    TimersOwned (World.fresh config page) :=
  ⟨rfl, fun _ => rfl⟩

/-! ## Calling stop and init again -/

theorem stop_of_inactive (w : World) (h1 : w.keepAlive.isActive = false)
    (h2 : w.keepAlive.intervals = []) :
    (stop w).keepAlive = w.keepAlive ∧ (stop w).page.timers = w.page.timers := by
  refine ⟨?_, ?_⟩
  · rw [stop_keepAlive, ← h1, ← h2]
  · rw [stop_timers, h2]; simp

theorem runCalls_stops (w : World) (h1 : w.keepAlive.isActive = false)
    (h2 : w.keepAlive.intervals = []) (n : Nat) :
    (runCalls w (List.replicate n .stop)).keepAlive = w.keepAlive ∧
    (runCalls w (List.replicate n .stop)).page.timers = w.page.timers ∧
    (runCalls w (List.replicate n .stop)).page.nextTimerId = w.page.nextTimerId ∧
    (runCalls w (List.replicate n .stop)).page.pendingSweeps = w.page.pendingSweeps ∧
    (runCalls w (List.replicate n .stop)).page.visibilityListeners =
      w.page.visibilityListeners := by
  induction n generalizing w with
  | zero => exact ⟨rfl, rfl, rfl, rfl, rfl⟩
  | succ n ih =>
    obtain ⟨hk, ht⟩ := stop_of_inactive w h1 h2
    have := ih (stop w) (by rw [hk]; exact h1) (by rw [hk]; exact h2)
    simp only [List.replicate_succ, runCalls, List.foldl_cons, Call.run] at this ⊢
    rw [this.1, this.2.1, this.2.2.1, this.2.2.2.1, this.2.2.2.2, hk, ht]
    simp

/-- C8, counterexample: after `init()` and `stop()` on the sample controller, the call sequence
consisting of one more `init()` makes `isActive` true again, arms three timers and starts a
sweep, on the same instance. -/
theorem stopped_controller_reactivates :
    (init sampleWorld).keepAlive.isActive = true ∧
    (stop (init sampleWorld)).keepAlive.isActive = false ∧
    (stop (init sampleWorld)).page.timers = [] ∧
    (runCalls (stop (init sampleWorld)) [.init]).keepAlive.isActive = true ∧
    (runCalls (stop (init sampleWorld)) [.init]).page.timers.length = 3 ∧
    (runCalls (stop (init sampleWorld)) [.init]).page.pendingSweeps =
      (stop (init sampleWorld)).page.pendingSweeps + 1 := by
  decide

/-- C8, amended: once `stop()` has been called, no later sequence of `stop()` calls makes
`isActive` true again, arms a timer or starts a sweep; a later `init()` on the same instance,
however, re-activates it: `isActive` is true again, three more timers are armed and one sweep is
started. -/
theorem stopped_until_init (w : World) (n : Nat) :
    (runCalls (stop w) (List.replicate n .stop)).keepAlive.isActive = false ∧
    (runCalls (stop w) (List.replicate n .stop)).keepAlive.intervals = [] ∧
    (runCalls (stop w) (List.replicate n .stop)).keepAlive.stats = (stop w).keepAlive.stats ∧
    (runCalls (stop w) (List.replicate n .stop)).page.timers = (stop w).page.timers ∧
    (runCalls (stop w) (List.replicate n .stop)).page.nextTimerId = (stop w).page.nextTimerId ∧
    (runCalls (stop w) (List.replicate n .stop)).page.pendingSweeps =
      (stop w).page.pendingSweeps ∧
    (init (runCalls (stop w) (List.replicate n .stop))).keepAlive.isActive = true ∧
    (init (runCalls (stop w) (List.replicate n .stop))).keepAlive.intervals.length = 3 ∧
    (init (runCalls (stop w) (List.replicate n .stop))).page.timers.length =
      (stop w).page.timers.length + 3 ∧
    (init (runCalls (stop w) (List.replicate n .stop))).page.pendingSweeps =
      (stop w).page.pendingSweeps + 1 := by
  have h1 : (stop w).keepAlive.isActive = false := by rw [stop_keepAlive]
  have h2 : (stop w).keepAlive.intervals = [] := by rw [stop_keepAlive]
  obtain ⟨hk, ht, hn, hp, -⟩ := runCalls_stops (stop w) h1 h2 n
  have h1n : (runCalls (stop w) (List.replicate n .stop)).keepAlive.isActive = false := by
    rw [hk]; exact h1
  refine ⟨h1n, by rw [hk]; exact h2, by rw [hk], ht, hn, hp, init_isActive _, ?_, ?_, ?_⟩
  · rw [init_intervals _ h1n, hk, h2]; rfl
  · rw [init_timers _ h1n, ht]; simp
  · rw [init_pendingSweeps _ h1n, hp]

/-- C9, counterexample: `stop()` on the sample controller, which was never started and whose
storage is empty, stores a record under the persistence key; and a second `stop()` one second
after the first replaces the stored record (its `savedAt` differs). -/
theorem stop_when_inactive_writes_storage :
    sampleWorld.keepAlive.isActive = false ∧
    sampleWorld.page.localStorage.items "marisol_keepalive" = none ∧
    (stop sampleWorld).page.localStorage.items "marisol_keepalive" =
      some (.json ⟨some 0, some 0, none, some 0, some 100, some 0⟩) ∧
    (advance (stop (init sampleWorld)) 1000).keepAlive.isActive = false ∧
    (stop (advance (stop (init sampleWorld)) 1000)).page.localStorage.items "marisol_keepalive" ≠
      (advance (stop (init sampleWorld)) 1000).page.localStorage.items "marisol_keepalive" := by
  decide

/-- C9, amended: `stop()` on an inactive controller (never started, or already stopped), in any
state the controller can reach, leaves every field of the controller and the armed timers,
listeners and sweeps in flight unchanged, but it is not a no-op on the store: it makes one
`setItem` call with the current statistics and the current time as `savedAt`, which replaces the
value under the persistence key when the storage accepts the write. -/
theorem stop_when_inactive (config : ConfigArg) (page : Page) (events : List Event)
    (h : (runEvents (World.fresh config page) events).keepAlive.isActive = false) :
    (stop (runEvents (World.fresh config page) events)).keepAlive =
      (runEvents (World.fresh config page) events).keepAlive ∧
    (stop (runEvents (World.fresh config page) events)).page.timers =
      (runEvents (World.fresh config page) events).page.timers ∧
    (stop (runEvents (World.fresh config page) events)).page.visibilityListeners =
      (runEvents (World.fresh config page) events).page.visibilityListeners ∧
    (stop (runEvents (World.fresh config page) events)).page.beforeUnloadListeners =
      (runEvents (World.fresh config page) events).page.beforeUnloadListeners ∧
    (stop (runEvents (World.fresh config page) events)).page.pendingSweeps =
      (runEvents (World.fresh config page) events).page.pendingSweeps ∧
    (stop (runEvents (World.fresh config page) events)).page.localStorage.setItemCalls =
      (runEvents (World.fresh config page) events).page.localStorage.setItemCalls ++
        [((runEvents (World.fresh config page) events).keepAlive.config.storageKey,
          JSON.stringify (runEvents (World.fresh config page) events).keepAlive.stats
            (runEvents (World.fresh config page) events).page.now)] ∧
    ((runEvents (World.fresh config page) events).page.localStorage.quotaExceeded = false →
      (stop (runEvents (World.fresh config page) events)).page.localStorage.items
          (runEvents (World.fresh config page) events).keepAlive.config.storageKey =
        some (JSON.stringify (runEvents (World.fresh config page) events).keepAlive.stats
          (runEvents (World.fresh config page) events).page.now)) := by
  have hown := timersOwned_runEvents _ events (timersOwned_fresh config page)
  obtain ⟨hk, ht⟩ := stop_of_inactive _ h (hown.2 h)
  refine ⟨hk, ht, by simp, by simp, by simp, stop_setItemCalls _, fun hq => ?_⟩
  rw [stop_items _ hq]; simp

/-- Witness of C9: the sample controller after `init()`, a timer tick, and `stop()` is inactive,
and a further `stop()` leaves its fields unchanged. -/
theorem stop_when_inactive_witness :
    (runEvents (World.fresh ⟨none, none, none, some true⟩ (Page.blank 0))
      [.call .init, .timer 1, .call .stop]).keepAlive.isActive = false ∧
    (stop (runEvents (World.fresh ⟨none, none, none, some true⟩ (Page.blank 0))
      [.call .init, .timer 1, .call .stop])).keepAlive =
      (runEvents (World.fresh ⟨none, none, none, some true⟩ (Page.blank 0))
        [.call .init, .timer 1, .call .stop]).keepAlive :=
  ⟨by decide, (stop_when_inactive ⟨none, none, none, some true⟩ (Page.blank 0)
    [.call .init, .timer 1, .call .stop] (by decide)).1⟩

/-! ## Visibility changes -/

@[simp]
theorem onVisibilityChange_visibilityState (w : World) :
    (onVisibilityChange w).page.visibilityState = w.page.visibilityState := by
  unfold onVisibilityChange; split <;> simp [pingStart]

theorem iterate_onVisibilityChange_visible (n : Nat) (w : World)
    (h : w.page.visibilityState = .visible) :
    (onVisibilityChange^[n] w).page.pendingSweeps = w.page.pendingSweeps + n := by
  induction n generalizing w with
  | zero => simp
  | succ n ih =>
    have hv : (onVisibilityChange w).page.visibilityState = .visible := by simp [h]
    rw [Function.iterate_succ_apply, ih (onVisibilityChange w) hv]
    simp only [onVisibilityChange, h, if_true, pingStart, log_pendingSweeps]
    omega

theorem iterate_onVisibilityChange_other (n : Nat) (w : World)
    (h : w.page.visibilityState ≠ .visible) : onVisibilityChange^[n] w = w := by
  apply Function.iterate_fixed
  simp [onVisibilityChange, h]

theorem visibilityChange_visible (w : World) :
    (visibilityChange w .visible).page.pendingSweeps =
      w.page.pendingSweeps + w.page.visibilityListeners :=
  iterate_onVisibilityChange_visible w.page.visibilityListeners
    { w with page := { w.page with visibilityState := .visible } } rfl

theorem visibilityChange_other (w : World) (state : VisibilityState) (h : state ≠ .visible) :
    (visibilityChange w state).keepAlive = w.keepAlive ∧
    (visibilityChange w state).page.pendingSweeps = w.page.pendingSweeps := by
  have := iterate_onVisibilityChange_other w.page.visibilityListeners
    { w with page := { w.page with visibilityState := state } } h
  unfold visibilityChange
  rw [this]
  exact ⟨rfl, rfl⟩

theorem sameControl_pageEvents (w : World) (events : List Event) :
    SameControl w (runEvents w (events.filter (fun e => !e.isCall))) := by
  induction events generalizing w with
  | nil => exact SameControl.refl w
  | cons e es ih =>
    cases e with
    | call c => simpa [Event.isCall] using ih w
    | visibility state =>
      exact (sameControl_visibilityChange w state).trans (ih _)
    | unload => exact (sameControl_beforeUnload w).trans (ih _)
    | timer id => exact (sameControl_timerFires w id).trans (ih _)
    | settled fetch =>
      refine SameControl.trans ?_ (ih (Event.run w (.settled fetch)))
      show SameControl w (if w.page.pendingSweeps = 0 then w else pingSettle w fetch)
      split
      · exact SameControl.refl w
      · exact sameControl_pingSettle w fetch
    | elapsed ms => exact (sameControl_advance w ms).trans (ih _)

/-- C10 (the code departs from it): `stop()` clears the timers but leaves the `visibilitychange`
listener registered, and every `init()` that finds the controller inactive registers one more.
A change to `visible` runs every registered listener, each starting a sweep (a change to another
state starts none). After `init()`, `stop()`, `init()` the sample controller is active with two
listeners, and one change to `visible` raises `stats.pingCount` by 2 and starts two sweeps, also
when time has passed and timers have fired in between; after `init()`, `stop()` alone the
inactive controller still starts a sweep on a change to `visible`. After a single `init()` on a
fresh controller the controller is active and the change starts exactly one sweep, whatever
timers have fired, sweeps have settled and time has passed since. -/
theorem visible_after_restart_starts_two_sweeps :
    (∀ w : World,
      (visibilityChange w .visible).page.pendingSweeps =
        w.page.pendingSweeps + w.page.visibilityListeners ∧
      (visibilityChange w .hidden).keepAlive = w.keepAlive ∧
      (visibilityChange w .hidden).page.pendingSweeps = w.page.pendingSweeps ∧
      (visibilityChange w .prerender).keepAlive = w.keepAlive ∧
      (visibilityChange w .prerender).page.pendingSweeps = w.page.pendingSweeps ∧
      (stop w).page.visibilityListeners = w.page.visibilityListeners) ∧
    (∀ (config : ConfigArg) (page : Page) (events : List Event),
      (runEvents (init (World.fresh config page))
        (events.filter (fun e => !e.isCall))).keepAlive.isActive = true ∧
      (visibilityChange (runEvents (init (World.fresh config page))
        (events.filter (fun e => !e.isCall))) .visible).page.pendingSweeps =
        (runEvents (init (World.fresh config page))
          (events.filter (fun e => !e.isCall))).page.pendingSweeps + 1) ∧
    (runCalls sampleWorld [.init]).page.visibilityListeners = 1 ∧
    (visibilityChange (runCalls sampleWorld [.init]) .visible).keepAlive.stats.pingCount =
      (runCalls sampleWorld [.init]).keepAlive.stats.pingCount + 1 ∧
    (runCalls sampleWorld [.init, .stop, .init]).keepAlive.isActive = true ∧
    (runCalls sampleWorld [.init, .stop, .init]).page.visibilityListeners = 2 ∧
    (visibilityChange (runCalls sampleWorld [.init, .stop, .init])
      .visible).keepAlive.stats.pingCount =
      (runCalls sampleWorld [.init, .stop, .init]).keepAlive.stats.pingCount + 2 ∧
    (visibilityChange (runCalls sampleWorld [.init, .stop, .init]) .visible).page.pendingSweeps =
      (runCalls sampleWorld [.init, .stop, .init]).page.pendingSweeps + 2 ∧
    (runEvents sampleWorld [.call .init, .elapsed 60000, .timer 1, .call .stop, .elapsed 5000,
      .call .init, .elapsed 30000, .timer 6]).keepAlive.isActive = true ∧
    (visibilityChange (runEvents sampleWorld [.call .init, .elapsed 60000, .timer 1, .call .stop,
      .elapsed 5000, .call .init, .elapsed 30000, .timer 6]) .visible).keepAlive.stats.pingCount =
      (runEvents sampleWorld [.call .init, .elapsed 60000, .timer 1, .call .stop, .elapsed 5000,
        .call .init, .elapsed 30000, .timer 6]).keepAlive.stats.pingCount + 2 ∧
    (runCalls sampleWorld [.init, .stop]).keepAlive.isActive = false ∧
    (visibilityChange (runCalls sampleWorld [.init, .stop]) .visible).page.pendingSweeps =
      (runCalls sampleWorld [.init, .stop]).page.pendingSweeps + 1 := by
  refine ⟨fun w => ⟨visibilityChange_visible w,
    (visibilityChange_other w .hidden (by decide)).1,
    (visibilityChange_other w .hidden (by decide)).2,
    (visibilityChange_other w .prerender (by decide)).1,
    (visibilityChange_other w .prerender (by decide)).2,
    stop_visibilityListeners w⟩, ?_,
    by decide, by decide, by decide, by decide, by decide, by decide, by decide, by decide,
    by decide, by decide⟩
  intro config page events
  have hfresh : (World.fresh config page).keepAlive.isActive = false := rfl
  obtain ⟨-, h2, -, -, -, h6, -⟩ := sameControl_pageEvents (init (World.fresh config page)) events
  refine ⟨by rw [h2]; exact init_isActive _, ?_⟩
  rw [visibilityChange_visible, h6, init_visibilityListeners _ hfresh]
  rfl

end KeepAlive
